/-
Verification of the Catalog Ingestion & Perceptual-Duplicate Resolution
Engine of the Z-Gallery repository.

The Python sources are shallowly embedded as executable Lean definitions:
  * `parse_date`, `strptime` model `artwork_importer._parse_date` and the
    CPython `datetime.strptime` regex semantics for the formats it uses;
  * `hamming`, `api_get_similar_ids` model the near-duplicate search of
    `blueprints/private.py`;
  * `get_random_sort_order` semantics model `utils.get_random_sort_order`;
  * `utils_get_publication_date` / `gallery_get_publication_date` model the
    two date-resolution implementations;
  * `add_artwork_to_database` models `artwork_importer.add_artwork_to_database`
    (with an internally-owned connection: commit on success, rollback on
    failure), over an explicit filesystem/catalog state;
  * `backfill_hashes` models `tools/generate_hashes.backfill_hashes`.
-/
import Mathlib

namespace ZGallery

/-- A `datetime.datetime` value (date and wall-clock time, no tz). -/
structure PyDateTime where
  year : Nat
  month : Nat
  day : Nat
  hour : Nat
  minute : Nat
  second : Nat
deriving DecidableEq, Repr

/-- Leap-year rule used by `datetime` for day-of-month validation. -/
def isLeapYear (y : Nat) : Bool :=
  y % 4 == 0 && (y % 100 != 0 || y % 400 == 0)

/-- Days in a month, per the Gregorian calendar used by `datetime`. -/
def daysInMonth (y m : Nat) : Nat :=
  if m == 2 then (if isLeapYear y then 29 else 28)
  else if m == 4 || m == 6 || m == 9 || m == 11 then 30
  else 31

/-! ### A model of `datetime.strptime` for the formats used by the repo

CPython's `_strptime` compiles each directive to a regex fragment
(`%Y ↦ \d\d\d\d`, `%m ↦ 1[0-2]|0[1-9]|[1-9]`, `%d ↦ 3[01]|[12]\d|0[1-9]|[1-9]`,
`%H ↦ 2[0-3]|[0-1]\d|\d`, `%M ↦ [0-5]\d|\d`, `%S ↦ 6[0-1]|[0-5]\d|\d`),
replaces whitespace in the format by `\s+`, matches case-insensitively,
requires the whole string to be consumed, and finally constructs a
`datetime` (which validates the day against the month and the field
ranges, raising `ValueError` on failure).  `runToks` reproduces the
regex's ordered-alternation backtracking. -/

/-- One directive or literal of a strptime format string. -/
inductive Tok where
  | lit (c : Char)
  | sp
  | Y
  | Mo
  | Da
  | Ho
  | Mi
  | Se
deriving DecidableEq, Repr

/-- Numeric value of an ASCII digit. -/
def digitVal (c : Char) : Nat := c.toNat - 48

def isDigitChar (c : Char) : Bool := '0' ≤ c && c ≤ '9'

/-- All ways a directive can consume a prefix of the input, in the
regex's alternation order (longest alternatives listed first, exactly as
in CPython's `TimeRE`). -/
def tokAlts (t : Tok) (s : List Char) : List (Nat × List Char) :=
  match t, s with
  | .lit c, x :: rest =>
      if x.toLower == c.toLower then [(0, rest)] else []
  | .lit _, [] => []
  | .sp, x :: rest =>
      if x.isWhitespace then [(0, (x :: rest).dropWhile Char.isWhitespace)] else []
  | .sp, [] => []
  | .Y, a :: b :: c :: d :: rest =>
      if isDigitChar a && isDigitChar b && isDigitChar c && isDigitChar d then
        [(digitVal a * 1000 + digitVal b * 100 + digitVal c * 10 + digitVal d, rest)]
      else []
  | .Y, _ => []
  | .Mo, s =>
      (match s with
       | a :: b :: rest =>
         (if a == '1' && ('0' ≤ b && b ≤ '2') then [(10 + digitVal b, rest)] else [])
         ++ (if a == '0' && ('1' ≤ b && b ≤ '9') then [(digitVal b, rest)] else [])
       | _ => [])
      ++ (match s with
          | a :: rest => if '1' ≤ a && a ≤ '9' then [(digitVal a, rest)] else []
          | _ => [])
  | .Da, s =>
      (match s with
       | a :: b :: rest =>
         (if a == '3' && ('0' ≤ b && b ≤ '1') then [(30 + digitVal b, rest)] else [])
         ++ (if ('1' ≤ a && a ≤ '2') && isDigitChar b then
               [(digitVal a * 10 + digitVal b, rest)] else [])
         ++ (if a == '0' && ('1' ≤ b && b ≤ '9') then [(digitVal b, rest)] else [])
       | _ => [])
      ++ (match s with
          | a :: rest => if '1' ≤ a && a ≤ '9' then [(digitVal a, rest)] else []
          | _ => [])
  | .Ho, s =>
      (match s with
       | a :: b :: rest =>
         (if a == '2' && ('0' ≤ b && b ≤ '3') then [(20 + digitVal b, rest)] else [])
         ++ (if ('0' ≤ a && a ≤ '1') && isDigitChar b then
               [(digitVal a * 10 + digitVal b, rest)] else [])
       | _ => [])
      ++ (match s with
          | a :: rest => if isDigitChar a then [(digitVal a, rest)] else []
          | _ => [])
  | .Mi, s =>
      (match s with
       | a :: b :: rest =>
         if ('0' ≤ a && a ≤ '5') && isDigitChar b then
           [(digitVal a * 10 + digitVal b, rest)] else []
       | _ => [])
      ++ (match s with
          | a :: rest => if isDigitChar a then [(digitVal a, rest)] else []
          | _ => [])
  | .Se, s =>
      (match s with
       | a :: b :: rest =>
         (if a == '6' && ('0' ≤ b && b ≤ '1') then [(60 + digitVal b, rest)] else [])
         ++ (if ('0' ≤ a && a ≤ '5') && isDigitChar b then
               [(digitVal a * 10 + digitVal b, rest)] else [])
       | _ => [])
      ++ (match s with
          | a :: rest => if isDigitChar a then [(digitVal a, rest)] else []
          | _ => [])

/-- Parse state: field values, initialized to strptime's defaults
(year 1900, month 1, day 1, time 00:00:00). -/
structure PParts where
  y : Nat := 1900
  mo : Nat := 1
  da : Nat := 1
  ho : Nat := 0
  mi : Nat := 0
  se : Nat := 0
deriving DecidableEq, Repr

def setTok (p : PParts) : Tok → Nat → PParts
  | .lit _, _ => p
  | .sp, _ => p
  | .Y, v => { p with y := v }
  | .Mo, v => { p with mo := v }
  | .Da, v => { p with da := v }
  | .Ho, v => { p with ho := v }
  | .Mi, v => { p with mi := v }
  | .Se, v => { p with se := v }

/-- Match a token sequence against the whole input, trying directive
alternatives in order with backtracking (first full match wins). -/
def runToks (toks : List Tok) (s : List Char) (p : PParts) : Option PParts :=
  match toks with
  | [] => if s.isEmpty then some p else none
  | t :: ts => (tokAlts t s).findSome? (fun vr => runToks ts vr.2 (setTok p t vr.1))

/-- `datetime(...)` construction: validates field ranges, `none` models
`ValueError`. -/
def mkDatetime (p : PParts) : Option PyDateTime :=
  if 1 ≤ p.y && p.y ≤ 9999 && 1 ≤ p.mo && p.mo ≤ 12
      && 1 ≤ p.da && p.da ≤ daysInMonth p.y p.mo
      && p.ho ≤ 23 && p.mi ≤ 59 && p.se ≤ 59 then
    some ⟨p.y, p.mo, p.da, p.ho, p.mi, p.se⟩
  else
    none

/-- `datetime.strptime(s, fmt)`; `none` models a raised `ValueError`. -/
def strptime (s : String) (fmt : List Tok) : Option PyDateTime :=
  (runToks fmt s.data {}).bind mkDatetime

/-- Token sequence of `'%Y-%m-%d %H:%M:%S'`. -/
def fmtYmdHMS : List Tok :=
  [.Y, .lit '-', .Mo, .lit '-', .Da, .sp, .Ho, .lit ':', .Mi, .lit ':', .Se]

/-- Token sequence of `'%Y-%m-%d'`. -/
def fmtYmd : List Tok := [.Y, .lit '-', .Mo, .lit '-', .Da]

/-- Token sequence of `'%Y:%m:%d %H:%M:%S'` (the EXIF format). -/
def fmtExif : List Tok :=
  [.Y, .lit ':', .Mo, .lit ':', .Da, .sp, .Ho, .lit ':', .Mi, .lit ':', .Se]

/-- Token sequence of `'%Y-%m-%dT%H:%M:%S'`. -/
def fmtIsoT : List Tok :=
  [.Y, .lit '-', .Mo, .lit '-', .Da, .lit 'T', .Ho, .lit ':', .Mi, .lit ':', .Se]

/-- Token sequence of `'%Y-%m-%dT%H:%M:%SZ'`. -/
def fmtIsoTZ : List Tok := fmtIsoT ++ [.lit 'Z']

/-- Input to `_parse_date`: a `datetime` object or a string. -/
inductive DateInput where
  | dt (d : PyDateTime)
  | str (s : String)
deriving DecidableEq, Repr

/-- `artwork_importer._parse_date`: a datetime passes through; a string is
tried against the five formats in order; anything else gives `None`. -/
def parse_date : DateInput → Option PyDateTime
  | .dt d => some d
  | .str s => [fmtYmdHMS, fmtYmd, fmtExif, fmtIsoT, fmtIsoTZ].findSome? (strptime s)

/-! ### Perceptual-duplicate search (`blueprints/private.py`, batch import)

Fingerprints are fixed-length bit vectors (a decoded `imagehash` hash).
`imagehash.__sub__` is the Hamming distance and raises on a length
mismatch; in the search loops that exception is swallowed by
`except: continue`, which the `Option` in `hamming` models. -/

/-- Hamming distance of two bit vectors; `none` models the `TypeError`
raised by `imagehash` on a length mismatch. -/
def hamming (a b : List Bool) : Option Nat :=
  if a.length = b.length then
    some ((a.zip b).countP (fun p => p.1 != p.2))
  else none

/-- The filtering loop of `api_get_similar_ids` / `find_similar_images`:
keep `(id, distance)` for every stored fingerprint whose distance to the
query is strictly below the threshold, skipping undecodable comparisons. -/
def similar_results (q : List Bool) (threshold : Int)
    (entries : List (Nat × List Bool)) : List (Nat × Nat) :=
  entries.filterMap (fun e =>
    match hamming q e.2 with
    | none => none
    | some d => if (d : Int) < threshold then some (e.1, d) else none)

/-- Comparison used by `results.sort(key=lambda x: x.distance)`:
ascending by the distance component. -/
def distLE (a b : Nat × Nat) : Prop := a.2 ≤ b.2

instance : DecidableRel distLE := fun a b => Nat.decLe a.2 b.2

instance : IsTotal (Nat × Nat) distLE := ⟨fun a b => Nat.le_total a.2 b.2⟩

instance : IsTrans (Nat × Nat) distLE := ⟨fun _ _ _ => Nat.le_trans⟩

/-- `api_get_similar_ids` (private.py): filter by strict threshold, sort
ascending by distance (Python's sort is stable; so is `insertionSort`
with a total preorder), cap at 50 results. -/
def api_get_similar_ids (q : List Bool) (threshold : Int)
    (entries : List (Nat × List Bool)) : List (Nat × Nat) :=
  (List.insertionSort distLE (similar_results q threshold entries)).take 50

/-! ### Pagination order (`utils.get_random_sort_order`) -/

/-- The SQL `ORDER BY` expression string emitted by
`utils.get_random_sort_order` for an integer seed. -/
def get_random_sort_order (seed : Nat) : String :=
  "((id * " ++ toString seed ++ ") % 1000000)"

/-- Value of the emitted `ORDER BY` expression on a row id. -/
def sql_order_key (seed id : Nat) : Nat := (id * seed) % 1000000

/-- SQL semantics of `ORDER BY ((id * seed) % 1000000)`: any output that
is a permutation of the selected rows, nondecreasing in the key, may be
returned (relative order of equal-key rows is unspecified, since the
emitted clause contains no further sort key). -/
def sql_order_by_permitted (seed : Nat) (input output : List Nat) : Prop :=
  output.Perm input ∧
    output.Sorted (fun a b => sql_order_key seed a ≤ sql_order_key seed b)

instance (seed : Nat) (input output : List Nat) :
    Decidable (sql_order_by_permitted seed input output) := by
  unfold sql_order_by_permitted
  infer_instance

/-! ### Date resolution (`utils.get_publication_date`,
`gallery_manager.get_publication_date`)

A file as seen by the date resolvers: its EXIF tag table (`none` when
`Image.open` fails or `_getexif()` returns `None`), the base name of its
path, and its filesystem ctime (`none` when `os.path.getctime` raises). -/
structure DFile where
  exifTags : Option (List (Nat × String))
  baseName : String
  ctime : Option PyDateTime
deriving DecidableEq, Repr

/-- EXIF date extraction as in `utils.get_publication_date`: for each of
tags 36867, 306 that is present, try `strptime` with the EXIF format; a
parse failure is swallowed (inner `except: pass`) and the next tag is
tried. -/
def utilsExifDate (tags : Option (List (Nat × String))) : Option PyDateTime :=
  match tags with
  | none => none
  | some l =>
    if l.isEmpty then none
    else [36867, 306].findSome? (fun tag => (l.lookup tag).bind (fun s => strptime s fmtExif))

/-- EXIF date extraction as in `gallery_manager.get_publication_date`:
the first *present* tag is parsed; a parse failure raises out of the
whole EXIF block (caught by the outer `except`), so the second tag is
not tried. -/
def galleryExifDate (tags : Option (List (Nat × String))) : Option PyDateTime :=
  match tags with
  | none => none
  | some l =>
    if l.isEmpty then none
    else match [36867, 306].findSome? (fun tag => l.lookup tag) with
         | some s => strptime s fmtExif
         | none => none

/-- Consume an optional `[-_]` separator (the regex's `[-_]?`). -/
def dropSep : List Char → List Char
  | c :: rest => if c == '-' || c == '_' then rest else c :: rest
  | [] => []

/-- Prefix match of `^(\d{4})[-_]?(\d{2})[-_]?(\d{2})` on the file name.
Since the optional separator can never steal a digit, the regex's greedy
matching needs no backtracking here. -/
def filenameDigits (s : List Char) : Option (Nat × Nat × Nat) :=
  match s with
  | a :: b :: c :: d :: rest =>
    if isDigitChar a && isDigitChar b && isDigitChar c && isDigitChar d then
      let y := digitVal a * 1000 + digitVal b * 100 + digitVal c * 10 + digitVal d
      match dropSep rest with
      | e :: f :: rest₂ =>
        if isDigitChar e && isDigitChar f then
          let mo := digitVal e * 10 + digitVal f
          match dropSep rest₂ with
          | g :: h :: _ =>
            if isDigitChar g && isDigitChar h then
              some (y, mo, digitVal g * 10 + digitVal h)
            else none
          | _ => none
        else none
      | _ => none
    else none
  | _ => none

/-- Strategy 2 of `utils.get_publication_date`: regex match on the base
name, then `datetime(year, month, day)` whose `ValueError` (month or day
out of range) is swallowed. -/
def filenameDate (baseName : String) : Option PyDateTime :=
  (filenameDigits baseName.data).bind
    (fun v => mkDatetime { y := v.1, mo := v.2.1, da := v.2.2 })

/-- `utils.get_publication_date`: EXIF, then filename date pattern, then
filesystem ctime, then "now" with source `Fallback`. -/
def utils_get_publication_date (f : DFile) (now : PyDateTime) : PyDateTime × String :=
  match utilsExifDate f.exifTags with
  | some d => (d, "EXIF")
  | none =>
    match filenameDate f.baseName with
    | some d => (d, "Filename")
    | none =>
      match f.ctime with
      | some t => (t, "File System (ctime)")
      | none => (now, "Fallback")

/-- `gallery_manager.get_publication_date`: EXIF, then filesystem ctime.
There is no filename strategy, and a failing `getctime` propagates as an
exception (`none`) instead of falling back to the current time. -/
def gallery_get_publication_date (f : DFile) : Option (PyDateTime × String) :=
  match galleryExifDate f.exifTags with
  | some d => some (d, "EXIF")
  | none => f.ctime.map (fun t => (t, "File System (ctime)"))

/-- Modelled from the spec: the §4.2 priority chain, first success wins —
embedded original-capture metadata, then a filename date pattern, then
filesystem creation time, with a final fallback to "now" tagged
`Fallback`. -/
def specResolveDate (f : DFile) (now : PyDateTime) : PyDateTime × String :=
  ((((utilsExifDate f.exifTags).map (fun d => (d, "EXIF"))).orElse
      (fun _ => (filenameDate f.baseName).map (fun d => (d, "Filename")))).orElse
    (fun _ => f.ctime.map (fun t => (t, "File System (ctime)")))).getD (now, "Fallback")

/-! ### Ingestion pipeline (`artwork_importer.add_artwork_to_database`)

The pipeline is embedded as a pure function over an explicit world state
(filesystem + catalog + derived-asset store), with the semantics of an
internally-owned sqlite connection (`db_connection=None`): commit on
success, rollback of the catalog write on any failure.  `datetime.now()`
and its `"%Y%m%d_%H%M%S"` rendering are supplied by the environment. -/

/-- The metadata dict. `none` models an absent key. -/
structure Metadata where
  artist : Option String := none
  platform : Option String := none
  title : Option String := none
  tags : Option String := none
  description : Option String := none
  rating : Option Int := none
  category : Option String := none
  classification : Option String := none
  creation_date : Option DateInput := none
  publication_date : Option DateInput := none
  source_url : Option String := none
deriving DecidableEq, Repr

/-- Python truthiness of `metadata.get(key)` for a string field: present
and non-empty. -/
def truthyStr : Option String → Bool
  | none => false
  | some s => s != ""

/-- Python truthiness of `metadata.get(key)` for a date field: a
`datetime` is always truthy, a string iff non-empty. -/
def truthyDate : Option DateInput → Bool
  | none => false
  | some (.str s) => s != ""
  | some (.dt _) => true

/-- A file on disk, as far as the pipeline observes it: EXIF tag table,
filesystem ctime, perceptual hash of its pixels (`none` when decoding
fails), and whether thumbnail generation for it succeeds. -/
structure FileInfo where
  exifTags : Option (List (Nat × String)) := none
  ctime : PyDateTime
  phash : Option String := none
  thumbOk : Bool := true
deriving DecidableEq, Repr

/-- The filesystem: existing files (path to contents) and directories. -/
structure FS where
  files : List (String × FileInfo) := []
  dirs : List String := []
deriving DecidableEq, Repr

def FS.lookup (fs : FS) (p : String) : Option FileInfo := fs.files.lookup p

/-- `shutil.move`: remove the source entry, (over)write the target. -/
def FS.move (fs : FS) (src dst : String) : FS :=
  match fs.files.lookup src with
  | none => fs
  | some i => { fs with files := (dst, i) :: fs.files.filter (fun e => e.1 != src && e.1 != dst) }

/-- `os.makedirs(d, exist_ok=True)`. -/
def FS.mkdir (fs : FS) (d : String) : FS :=
  if fs.dirs.contains d then fs else { fs with dirs := d :: fs.dirs }

/-- One row of the `artworks` table. -/
structure Row where
  id : Nat
  file_path : String
  file_name : String
  title : Option String
  artist : String
  source_platform : String
  tags : String
  description : String
  rating : Option Int
  category : String
  classification : Option String
  creation_date : Option PyDateTime
  publication_date : Option PyDateTime
  last_modified_date : PyDateTime
  phash : Option String
  source_url : Option String
  thumbnail_filename : Option String
deriving DecidableEq, Repr

/-- The `artworks` table plus its `AUTOINCREMENT` counter. -/
structure Catalog where
  rows : List Row := []
  nextId : Nat := 1
deriving DecidableEq, Repr

/-- `path.replace('\\', '/')` (also `utils.normalize_path`). -/
def normalize_path (s : String) : String :=
  ⟨s.data.map (fun c => if c == '\\' then '/' else c)⟩

/-- `os.path.basename` on POSIX: everything after the last `/`. -/
def basename (p : String) : String :=
  ⟨(p.data.reverse.takeWhile (fun c => c != '/')).reverse⟩

/-- `os.path.splitext` (posixpath): split off the extension at the last
dot of the last path component, unless every character before that dot
in the component is itself a dot. -/
def splitext (p : String) : String × String :=
  let cs := p.data
  let base := (cs.reverse.takeWhile (fun c => c != '/')).reverse
  let pre := cs.take (cs.length - base.length)
  let extLen := (base.reverse.takeWhile (fun c => c != '.')).length
  if extLen = base.length then (p, "")
  else
    let root := base.take (base.length - extLen - 1)
    if root.any (fun c => c != '.') then
      (⟨pre ++ root⟩, ⟨base.drop (base.length - extLen - 1)⟩)
    else (p, "")

/-- `os.path.join` on POSIX for two components: `b` if it is absolute,
else `a + b` if `a` is empty or ends with the separator, else
`a + '/' + b`. -/
def osJoin (a b : String) : String :=
  if b.data.head? == some '/' then b
  else if a == "" || a.data.getLast? == some '/' then a ++ b
  else a ++ "/" ++ b

/-- `config.IMAGES_ROOT_FOLDER`. -/
def IMAGES_ROOT_FOLDER : String := "./zootopia_pics"

/-- `f"{n:06d}"`. -/
def pad6 (n : Nat) : String :=
  let s := toString n
  ⟨List.replicate (6 - s.length) '0'⟩ ++ s

/-- `_create_thumbnail`'s deterministic name `f"{artwork_id:06d}.jpg"`. -/
def thumbnail_name (id : Nat) : String := pad6 id ++ ".jpg"

/-- Ambient values the pipeline reads from the clock. -/
structure Env where
  now : PyDateTime
  nowTs : String
deriving DecidableEq, Repr

/-- The world the pipeline acts on: filesystem, catalog, and the set of
generated thumbnail files (derived-asset store). -/
structure World where
  fs : FS
  catalog : Catalog
  thumbs : List String := []
deriving DecidableEq, Repr

/-- The `(success, artwork_id, error)` tuple returned by the importer. -/
structure IngestRet where
  success : Bool
  artwork_id : Option Nat
  error : Option String
deriving DecidableEq, Repr

def ingestErr (e : String) : IngestRet := ⟨false, none, some e⟩

/-- `artwork_importer._extract_exif_date`: for each of tags 36867, 306
present in the (truthy) EXIF dict, try `_parse_date`; first success
wins, failures fall through to the next tag. -/
def extract_exif_date (tags : Option (List (Nat × String))) : Option PyDateTime :=
  match tags with
  | none => none
  | some l =>
    if l.isEmpty then none
    else [36867, 306].findSome? (fun tag => (l.lookup tag).bind (fun s => parse_date (.str s)))

/-- The three date columns prepared by `_prepare_dates`. -/
structure Dates where
  creation_date : Option PyDateTime
  publication_date : Option PyDateTime
  last_modified_date : PyDateTime
deriving DecidableEq, Repr

/-- `artwork_importer._prepare_dates`: `creation_date` from the metadata
if truthy (else the placed file's ctime); `publication_date` from the
metadata if truthy, else EXIF, else `creation_date`; `last_modified_date`
is the current time. -/
def prepare_dates (md : Metadata) (info : FileInfo) (now : PyDateTime) : Dates :=
  let creation :=
    if truthyDate md.creation_date then parse_date (md.creation_date.getD (.str ""))
    else some info.ctime
  let publication :=
    if truthyDate md.publication_date then parse_date (md.publication_date.getD (.str ""))
    else
      match extract_exif_date info.exifTags with
      | some e => some e
      | none => creation
  ⟨creation, publication, now⟩

def validCategory (c : String) : Bool :=
  c == "fanart_comic" || c == "fanart_non_comic" || c == "real_photo" || c == "other"

def validClassification : Option String → Bool
  | none => true
  | some c => c == "sfw" || c == "mature" || c == "nsfw"

/-- The `INSERT INTO artworks ...` statement: enforces the schema's
`NOT NULL` on `creation_date`, `UNIQUE` on `file_path` and the two
`CHECK` constraints, assigns the next id, appends the row. -/
def insert_artwork (cat : Catalog) (r : Row) : Except String (Catalog × Nat) :=
  if r.creation_date.isNone then
    .error "NOT NULL constraint failed: artworks.creation_date"
  else if cat.rows.any (fun x => x.file_path == r.file_path) then
    .error "UNIQUE constraint failed: artworks.file_path"
  else if !validClassification r.classification then
    .error "CHECK constraint failed: classification"
  else if !validCategory r.category then
    .error "CHECK constraint failed: category"
  else
    .ok ({ rows := cat.rows ++ [{ r with id := cat.nextId }], nextId := cat.nextId + 1 },
         cat.nextId)

/-- `UPDATE artworks SET thumbnail_filename = ? WHERE id = ?`. -/
def update_thumbnail (cat : Catalog) (id : Nat) (name : String) : Catalog :=
  { cat with rows := cat.rows.map (fun r =>
      if r.id == id then { r with thumbnail_filename := some name } else r) }

/-- The placement step (`move_file` branch): derive the target directory
from `(platform, artist)`, create it, and move the file there, adding a
`_<timestamp>` suffix to the base name when the target already exists. -/
def place (env : Env) (fs : FS) (file_path platform artist : String) : String × FS :=
  let target_dir := osJoin (osJoin IMAGES_ROOT_FOLDER platform) artist
  let fs₁ := fs.mkdir target_dir
  let filename := basename file_path
  let final := osJoin target_dir filename
  if (fs₁.lookup final).isSome then
    let ne := splitext filename
    let fname := ne.1 ++ "_" ++ env.nowTs ++ ne.2
    let final' := osJoin target_dir fname
    (final', fs₁.move file_path final')
  else (final, fs₁.move file_path final)

/-- Steps 1–3 outcome: the file's final path and the filesystem after
the (possible) move. -/
def ingest_path (env : Env) (w : World) (file_path : String) (md : Metadata)
    (move_file : Bool) : String × FS :=
  if move_file then place env w.fs file_path (md.platform.getD "") (md.artist.getD "")
  else (file_path, w.fs)

/-- The row handed to the `INSERT` (id still unassigned). -/
def ingest_row (env : Env) (w : World) (file_path : String) (md : Metadata)
    (move_file : Bool) (info : FileInfo) : Row :=
  let fp := (ingest_path env w file_path md move_file).1
  let dates := prepare_dates md info env.now
  { id := 0
    file_path := normalize_path fp
    file_name := basename fp
    title := md.title
    artist := md.artist.getD ""
    source_platform := md.platform.getD ""
    tags := md.tags.getD ""
    description := md.description.getD ""
    rating := md.rating
    category := md.category.getD "fanart_non_comic"
    classification := md.classification
    creation_date := dates.creation_date
    publication_date := dates.publication_date
    last_modified_date := dates.last_modified_date
    phash := info.phash
    source_url := md.source_url
    thumbnail_filename := none }

/-- The exact-duplicate check of step 2: enabled, non-empty title, and a
row with the same `(platform, artist, title)` triple already stored. -/
def dup_hit (w : World) (md : Metadata) (check_duplicate : Bool) : Bool :=
  check_duplicate && truthyStr md.title &&
    w.catalog.rows.any (fun r =>
      r.source_platform == md.platform.getD "" && r.artist == md.artist.getD "" &&
        r.title == some (md.title.getD ""))

/-- `artwork_importer.add_artwork_to_database` with an internally-owned
connection: validate, exact-duplicate check, placement, date and phash
computation, insert, thumbnail, commit; on any failure the catalog write
is rolled back (file moves are not reversed). -/
def add_artwork_to_database (env : Env) (w : World) (file_path : String)
    (md : Metadata) (move_file : Bool := true) (check_duplicate : Bool := true) :
    IngestRet × World :=
  match w.fs.lookup file_path with
  | none => (ingestErr ("File not found: " ++ file_path), w)
  | some info =>
    if !truthyStr md.artist || !truthyStr md.platform then
      (ingestErr "Artist and Platform are required", w)
    else
      if dup_hit w md check_duplicate then
        (ingestErr ("Duplicate: " ++ md.title.getD ""), w)
      else
        match insert_artwork w.catalog (ingest_row env w file_path md move_file info) with
        | .error e => (ingestErr e, { w with fs := (ingest_path env w file_path md move_file).2 })
        | .ok (cat₂, newId) =>
          if info.thumbOk then
            (⟨true, some newId, none⟩,
             { fs := (ingest_path env w file_path md move_file).2,
               catalog := update_thumbnail cat₂ newId (thumbnail_name newId),
               thumbs := thumbnail_name newId :: w.thumbs })
          else
            (ingestErr "thumbnail generation failed",
             { w with fs := (ingest_path env w file_path md move_file).2 })

/-! ### Fingerprint backfill (`tools/generate_hashes.backfill_hashes`) -/

/-- `generate_hashes.normalize_path`: keep the stored path if it exists,
else retry with separators normalized (on POSIX, `\` to `/`). -/
def ghNormalize (fs : FS) (p : String) : String :=
  if (fs.lookup p).isSome then p
  else
    let alt := normalize_path p
    if (fs.lookup alt).isSome then alt else p

/-- One iteration of the backfill loop for a selected `(id, file_path)`
record: skip when the file is missing or undecodable, else
`UPDATE artworks SET phash = ? WHERE id = ?` (committed immediately). -/
def backfill_step (fs : FS) (c : Catalog) (rec : Nat × String) : Catalog :=
  match fs.lookup (ghNormalize fs rec.2) with
  | none => c
  | some info =>
    match info.phash with
    | none => c
    | some h =>
      { c with rows := c.rows.map (fun r =>
          if r.id == rec.1 then { r with phash := some h } else r) }

/-- `backfill_hashes`: select `(id, file_path)` of rows whose `phash IS
NULL` (optionally limited), and run the update loop over them. -/
def backfill_hashes (fs : FS) (cat : Catalog) (limit : Option Nat) : Catalog :=
  let records := (cat.rows.filter (fun r => r.phash.isNone)).map (fun r => (r.id, r.file_path))
  let records := match limit with | some n => records.take n | none => records
  records.foldl (backfill_step fs) cat

end ZGallery

-- sanity examples (parse model behaves like CPython on concrete inputs)
example : ZGallery.parse_date (.str "2021-03-04") = some ⟨2021, 3, 4, 0, 0, 0⟩ := by decide
example : ZGallery.parse_date (.str "2021:03:04 05:06:07") = some ⟨2021, 3, 4, 5, 6, 7⟩ := by
  decide
example : ZGallery.parse_date (.str "2020/12/31") = none := by decide
example : ZGallery.parse_date (.str "") = none := by decide
example : ZGallery.parse_date (.str "2021-02-29") = none := by decide
example : ZGallery.parse_date (.str "2020-02-29") = some ⟨2020, 2, 29, 0, 0, 0⟩ := by decide

namespace ZGallery

/-! ## Helper lemmas -/

/-- Two sorted permutations of each other agree when the sort key is
injective on their elements. -/
theorem sorted_perm_eq_of_injOn (key : Nat → Nat) :
    ∀ o₁ o₂ : List Nat, o₁.Perm o₂ →
      o₁.Sorted (fun a b => key a ≤ key b) → o₂.Sorted (fun a b => key a ≤ key b) →
      (∀ a ∈ o₁, ∀ b ∈ o₁, key a = key b → a = b) → o₁ = o₂ := by
  intro o₁
  induction o₁ with
  | nil => intro o₂ hp _ _ _; exact hp.nil_eq
  | cons a t ih =>
    intro o₂ hp hs₁ hs₂ hinj
    cases o₂ with
    | nil => exact absurd (List.perm_nil.mp hp) (by simp)
    | cons b t₂ =>
      have hb : b ∈ a :: t := hp.mem_iff.mpr (List.mem_cons_self b t₂)
      have hab : a = b := by
        rcases List.mem_cons.mp hb with h | hbt
        · exact h.symm
        · have ha : a ∈ b :: t₂ := hp.mem_iff.mp (List.mem_cons_self a t)
          rcases List.mem_cons.mp ha with h | hat
          · exact h
          · have h₁ : key a ≤ key b := (List.pairwise_cons.mp hs₁).1 b hbt
            have h₂ : key b ≤ key a := (List.pairwise_cons.mp hs₂).1 a hat
            exact hinj a (List.mem_cons_self a t) b hb (Nat.le_antisymm h₁ h₂)
      subst hab
      have ht := ih t₂ hp.cons_inv (List.pairwise_cons.mp hs₁).2 (List.pairwise_cons.mp hs₂).2
        (fun x hx y hy hk =>
          hinj x (List.mem_cons_of_mem a hx) y (List.mem_cons_of_mem a hy) hk)
      rw [ht]

/-! ## Claim C1: near-duplicate search -/

/-- C1: for every candidate fingerprint, threshold and stored
fingerprint set, `api_get_similar_ids` returns pairs sorted ascending by
distance, at most 50 of them, each drawn from (and — when at most 50
matches exist — exactly the multiset of) the entries whose Hamming
distance to the candidate is strictly below the threshold. -/
theorem claim_C1 (q : List Bool) (t : Int) (entries : List (Nat × List Bool)) :
    List.Sorted distLE (api_get_similar_ids q t entries) ∧
    (api_get_similar_ids q t entries).length ≤ 50 ∧
    (∀ p ∈ api_get_similar_ids q t entries, p ∈ similar_results q t entries) ∧
    ((similar_results q t entries).length ≤ 50 →
      (api_get_similar_ids q t entries).Perm (similar_results q t entries)) ∧
    (∀ i d, (i, d) ∈ similar_results q t entries ↔
      ∃ fp, (i, fp) ∈ entries ∧ hamming q fp = some d ∧ (d : Int) < t) := by
  refine ⟨?_, ?_, ?_, ?_, ?_⟩
  · exact (List.sorted_insertionSort distLE _).sublist (List.take_sublist _ _)
  · exact List.length_take_le _ _
  · intro p hp
    exact (List.perm_insertionSort distLE _).subset (List.take_subset _ _ hp)
  · intro hlen
    rw [api_get_similar_ids,
      List.take_of_length_le (by rw [(List.perm_insertionSort distLE _).length_eq]; exact hlen)]
    exact List.perm_insertionSort distLE _
  · intro i d
    constructor
    · intro h
      rcases List.mem_filterMap.mp h with ⟨⟨i', fp⟩, hmem, hf⟩
      cases hh : hamming q fp with
      | none => rw [hh] at hf; exact absurd hf (by simp)
      | some d' =>
        rw [hh] at hf
        by_cases hlt : (d' : Int) < t
        · simp only [hlt, if_pos] at hf
          obtain ⟨rfl, rfl⟩ : i' = i ∧ d' = d := by
            constructor <;> [exact congrArg Prod.fst (Option.some.inj hf);
              exact congrArg Prod.snd (Option.some.inj hf)]
          exact ⟨fp, hmem, hh, hlt⟩
        · simp [hlt] at hf
    · rintro ⟨fp, hmem, hh, hlt⟩
      exact List.mem_filterMap.mpr ⟨(i, fp), hmem, by simp [hh, hlt]⟩

/-- C1 witness: a stored fingerprint at Hamming distance 3 is returned
for threshold 10 (sorted, within the cap) and the result is empty for
threshold 2. -/
theorem claim_C1_witness :
    (api_get_similar_ids [true, true, true, false, false, false, true, true] 10
        [(7, [false, true, false, false, false, false, true, false])]).Perm
      (similar_results [true, true, true, false, false, false, true, true] 10
        [(7, [false, true, false, false, false, false, true, false])]) ∧
    api_get_similar_ids [true, true, true, false, false, false, true, true] 10
        [(7, [false, true, false, false, false, false, true, false])] = [(7, 3)] ∧
    api_get_similar_ids [true, true, true, false, false, false, true, true] 2
        [(7, [false, true, false, false, false, false, true, false])] = [] := by
  refine ⟨(claim_C1 _ _ _).2.2.2.1 (by decide), by decide, by decide⟩

/-! ## Claim C5: pagination order key -/

/-- C5 (corrected): the emitted key is `(id * seed) % 1000000`, a pure
function of `(id, seed)`; and whenever the key is injective on the rows
being ordered, the permitted `ORDER BY` output is uniquely determined.
(The emitted clause contains no secondary tie-break — see the
counterexample.) -/
theorem claim_C5 :
    (∀ id seed : Nat, sql_order_key seed id = (id * seed) % 1000000) ∧
    (∀ seed : Nat, ∀ l o₁ o₂ : List Nat,
      sql_order_by_permitted seed l o₁ → sql_order_by_permitted seed l o₂ →
      (∀ a ∈ l, ∀ b ∈ l, sql_order_key seed a = sql_order_key seed b → a = b) →
      o₁ = o₂) := by
  refine ⟨fun _ _ => rfl, ?_⟩
  intro seed l o₁ o₂ h₁ h₂ hinj
  exact sorted_perm_eq_of_injOn (sql_order_key seed) o₁ o₂ (h₁.1.trans h₂.1.symm) h₁.2 h₂.2
    (fun a ha b hb => hinj a (h₁.1.subset ha) b (h₁.1.subset hb))

/-- C5 counterexample: with seed 500000, ids 2 and 4 share the order key
0, and the output `[4, 2]` — the colliding ids in *descending* order —
is a permitted result of the emitted `ORDER BY`: no ascending-id
tie-break is enforced. -/
theorem claim_C5_counterexample :
    sql_order_by_permitted 500000 [2, 4] [4, 2] ∧
    sql_order_key 500000 2 = sql_order_key 500000 4 ∧
    ([4, 2] : List Nat) ≠ [2, 4] := by
  refine ⟨⟨by decide, by decide⟩, by decide, by decide⟩

/-- C5 witness: concrete instantiation of the uniqueness part on a
collision-free input. -/
theorem claim_C5_witness : ([3, 5] : List Nat) = [3, 5] ∧ sql_order_key 1 3 = (3 * 1) % 1000000 :=
  ⟨claim_C5.2 1 [3, 5] [3, 5] [3, 5] (by refine ⟨by decide, by decide⟩)
      (by refine ⟨by decide, by decide⟩) (by decide),
    claim_C5.1 3 1⟩

/-! ## Claim C7: validation failures have no side effects -/

/-- C7: when the source file does not exist, or the metadata lacks a
non-empty artist or platform, the ingest call fails with an error and
the entire world (filesystem, directories, catalog, derived assets) is
unchanged. -/
theorem claim_C7 (env : Env) (w : World) (p : String) (md : Metadata) (mv cd : Bool)
    (h : w.fs.lookup p = none ∨ truthyStr md.artist = false ∨ truthyStr md.platform = false) :
    (add_artwork_to_database env w p md mv cd).1.success = false ∧
    (add_artwork_to_database env w p md mv cd).1.error.isSome = true ∧
    (add_artwork_to_database env w p md mv cd).2 = w := by
  rcases h with h | h | h
  · simp [add_artwork_to_database, h, ingestErr]
  · cases hl : w.fs.lookup p <;> simp [add_artwork_to_database, hl, h, ingestErr]
  · cases hl : w.fs.lookup p <;> simp [add_artwork_to_database, hl, h, ingestErr]

/-- C7 witness: ingest of a missing file on an empty world. -/
theorem claim_C7_witness :
    (add_artwork_to_database ⟨⟨2024, 1, 1, 0, 0, 0⟩, "ts"⟩ ⟨⟨[], []⟩, ⟨[], 1⟩, []⟩
      "x.png" {} true true).1.success = false ∧
    (add_artwork_to_database ⟨⟨2024, 1, 1, 0, 0, 0⟩, "ts"⟩ ⟨⟨[], []⟩, ⟨[], 1⟩, []⟩
      "x.png" {} true true).1.error.isSome = true ∧
    (add_artwork_to_database ⟨⟨2024, 1, 1, 0, 0, 0⟩, "ts"⟩ ⟨⟨[], []⟩, ⟨[], 1⟩, []⟩
      "x.png" {} true true).2 = ⟨⟨[], []⟩, ⟨[], 1⟩, []⟩ :=
  claim_C7 _ _ _ _ _ _ (Or.inl rfl)

end ZGallery

namespace ZGallery

/-! ## Claim C8: date-resolution priority chain -/

/-- C8 (corrected): `utils.get_publication_date` returns exactly the
first succeeding step of the §4.2 chain (EXIF, filename pattern, ctime,
then "now"/`Fallback`); `gallery_manager.get_publication_date` does not —
its result source is only ever EXIF or filesystem ctime, never the
filename pattern and never `Fallback`. -/
theorem claim_C8 (f : DFile) (now : PyDateTime) :
    utils_get_publication_date f now = specResolveDate f now ∧
    (∀ d src, gallery_get_publication_date f = some (d, src) →
      src = "EXIF" ∨ src = "File System (ctime)") := by
  constructor
  · unfold utils_get_publication_date specResolveDate
    cases utilsExifDate f.exifTags <;> cases filenameDate f.baseName <;> cases f.ctime <;> rfl
  · intro d src h
    unfold gallery_get_publication_date at h
    cases hg : galleryExifDate f.exifTags with
    | some e => rw [hg] at h; simp at h; exact Or.inl h.2.symm
    | none =>
      rw [hg] at h
      cases hc : f.ctime with
      | none => rw [hc] at h; simp at h
      | some tv => rw [hc] at h; simp at h; exact Or.inr h.2.symm

/-- C8 counterexample: a file with no EXIF data, a `YYYY-MM-DD` date in
its name, and a filesystem ctime. The §4.2 chain (and `utils`) resolve
it from the filename; `gallery_manager.get_publication_date` returns the
ctime instead — it does not implement the chain. -/
theorem claim_C8_counterexample :
    gallery_get_publication_date
        ⟨none, "2020-05-06_pic.jpg", some ⟨2022, 1, 1, 0, 0, 0⟩⟩ =
      some (⟨2022, 1, 1, 0, 0, 0⟩, "File System (ctime)") ∧
    specResolveDate ⟨none, "2020-05-06_pic.jpg", some ⟨2022, 1, 1, 0, 0, 0⟩⟩
        ⟨2024, 1, 1, 0, 0, 0⟩ = (⟨2020, 5, 6, 0, 0, 0⟩, "Filename") ∧
    (⟨2022, 1, 1, 0, 0, 0⟩ : PyDateTime) ≠ ⟨2020, 5, 6, 0, 0, 0⟩ := by
  refine ⟨by decide, by decide, by decide⟩

/-- C8 witness: concrete instantiation — a file with neither EXIF nor a
filename date resolves from ctime in both implementations. -/
theorem claim_C8_witness :
    utils_get_publication_date ⟨none, "pic.jpg", some ⟨2022, 1, 1, 0, 0, 0⟩⟩
        ⟨2024, 1, 1, 0, 0, 0⟩ =
      specResolveDate ⟨none, "pic.jpg", some ⟨2022, 1, 1, 0, 0, 0⟩⟩ ⟨2024, 1, 1, 0, 0, 0⟩ ∧
    ("File System (ctime)" = "EXIF" ∨ "File System (ctime)" = "File System (ctime)") :=
  ⟨(claim_C8 ⟨none, "pic.jpg", some ⟨2022, 1, 1, 0, 0, 0⟩⟩ ⟨2024, 1, 1, 0, 0, 0⟩).1,
   (claim_C8 ⟨none, "pic.jpg", some ⟨2022, 1, 1, 0, 0, 0⟩⟩ ⟨2024, 1, 1, 0, 0, 0⟩).2
      ⟨2022, 1, 1, 0, 0, 0⟩ "File System (ctime)" (by decide)⟩

/-! ## Closed counterexamples for C2, C4, C10 -/

/-- C2 counterexample: thumbnail generation fails after a successful
insert; the call reports failure and the catalog ends *empty* — the
insert is rolled back, the entry does not persist as a degraded result. -/
theorem claim_C2_counterexample :
    (add_artwork_to_database ⟨⟨2024, 6, 1, 12, 0, 0⟩, "20240601_120000"⟩
        ⟨⟨[("a.jpg", { ctime := ⟨2022, 1, 1, 0, 0, 0⟩, thumbOk := false })], []⟩, ⟨[], 1⟩, []⟩
        "a.jpg" { artist := some "A", platform := some "P" } false true).1.success = false ∧
    (add_artwork_to_database ⟨⟨2024, 6, 1, 12, 0, 0⟩, "20240601_120000"⟩
        ⟨⟨[("a.jpg", { ctime := ⟨2022, 1, 1, 0, 0, 0⟩, thumbOk := false })], []⟩, ⟨[], 1⟩, []⟩
        "a.jpg" { artist := some "A", platform := some "P" } false true).1.error =
      some "thumbnail generation failed" ∧
    (add_artwork_to_database ⟨⟨2024, 6, 1, 12, 0, 0⟩, "20240601_120000"⟩
        ⟨⟨[("a.jpg", { ctime := ⟨2022, 1, 1, 0, 0, 0⟩, thumbOk := false })], []⟩, ⟨[], 1⟩, []⟩
        "a.jpg" { artist := some "A", platform := some "P" } false true).2.catalog.rows = [] := by
  refine ⟨by decide, by decide, by decide⟩

/-- C4 counterexample: a source file carrying both a parseable EXIF
capture date (2021-03-04) and a filename date pattern (2020-05-06), with
no metadata dates supplied: the ingested row's `creation_date` is the
filesystem ctime (2022-01-01), not the embedded metadata — the §4.2
chain is not applied to `creation_date`. -/
theorem claim_C4_counterexample :
    extract_exif_date (some [(36867, "2021:03:04 05:06:07")]) = some ⟨2021, 3, 4, 5, 6, 7⟩ ∧
    filenameDate "2020-05-06_art.jpg" = some ⟨2020, 5, 6, 0, 0, 0⟩ ∧
    ((add_artwork_to_database ⟨⟨2024, 6, 1, 12, 0, 0⟩, "20240601_120000"⟩
        ⟨⟨[("pics/2020-05-06_art.jpg",
            { exifTags := some [(36867, "2021:03:04 05:06:07")],
              ctime := ⟨2022, 1, 1, 0, 0, 0⟩ })], []⟩, ⟨[], 1⟩, []⟩
        "pics/2020-05-06_art.jpg" { artist := some "A", platform := some "P" }
        false true).2.catalog.rows.map (fun r => r.creation_date)) =
      [some ⟨2022, 1, 1, 0, 0, 0⟩] ∧
    (⟨2022, 1, 1, 0, 0, 0⟩ : PyDateTime) ≠ ⟨2021, 3, 4, 5, 6, 7⟩ := by
  refine ⟨by decide, by decide, by decide, by decide⟩

/-- C10 counterexample: the empty string matches none of the five
accepted formats, yet supplying it as `creation_date` does *not* fail
the ingest — Python truthiness routes it to the filesystem-time
fallback, and the call succeeds with `creation_date` = ctime. -/
theorem claim_C10_counterexample :
    parse_date (.str "") = none ∧
    (add_artwork_to_database ⟨⟨2024, 6, 1, 12, 0, 0⟩, "20240601_120000"⟩
        ⟨⟨[("a.jpg", { ctime := ⟨2022, 1, 1, 0, 0, 0⟩ })], []⟩, ⟨[], 1⟩, []⟩
        "a.jpg" { artist := some "A", platform := some "P", creation_date := some (.str "") }
        false true).1.success = true ∧
    ((add_artwork_to_database ⟨⟨2024, 6, 1, 12, 0, 0⟩, "20240601_120000"⟩
        ⟨⟨[("a.jpg", { ctime := ⟨2022, 1, 1, 0, 0, 0⟩ })], []⟩, ⟨[], 1⟩, []⟩
        "a.jpg" { artist := some "A", platform := some "P", creation_date := some (.str "") }
        false true).2.catalog.rows.map (fun r => r.creation_date)) =
      [some ⟨2022, 1, 1, 0, 0, 0⟩] := by
  refine ⟨by decide, by decide, by decide⟩

end ZGallery

namespace ZGallery

/-! ## Path and filesystem lemmas -/

theorem normalize_length (s : String) : (normalize_path s).length = s.length := by
  show (s.data.map _).length = s.data.length
  simp

theorem str_ne_of_length_ne {s t : String} (h : s.length ≠ t.length) : s ≠ t :=
  fun he => h (he ▸ rfl)

theorem splitext_length (p : String) :
    (splitext p).1.length + (splitext p).2.length = p.length := by
  simp only [splitext]
  have hb : ((p.data.reverse.takeWhile (fun c => c != '/')).reverse).length ≤ p.data.length := by
    simpa using (List.takeWhile_sublist (l := p.data.reverse) (fun c => c != '/')).length_le
  have he :
      ((((p.data.reverse.takeWhile (fun c => c != '/')).reverse).reverse.takeWhile
        (fun c => c != '.')).length) ≤
      ((p.data.reverse.takeWhile (fun c => c != '/')).reverse).length := by
    simpa using
      (List.takeWhile_sublist
        (l := ((p.data.reverse.takeWhile (fun c => c != '/')).reverse).reverse)
        (fun c => c != '.')).length_le
  have hmk : ∀ l : List Char, (String.mk l).length = l.length := fun _ => rfl
  have hemp : ("" : String).length = 0 := rfl
  have hp : p.length = p.data.length := rfl
  split_ifs with h1 h2
  · show p.length + ("" : String).length = p.length
    omega
  · rw [hmk, hmk, List.length_append, List.length_take, List.length_take, List.length_drop]
    omega
  · show p.length + ("" : String).length = p.length
    omega

theorem basename_no_slash (p : String) : ∀ c ∈ (basename p).data, c ≠ '/' := by
  intro c hc
  simp only [basename] at hc
  rw [List.mem_reverse] at hc
  simpa using List.mem_takeWhile_imp hc

theorem head_ne_slash_of_no_slash {s : String} (h : ∀ c ∈ s.data, c ≠ '/') :
    s.data.head? ≠ some '/' := by
  cases hd : s.data with
  | nil => simp
  | cons a t =>
    simp only [List.head?, ne_eq, Option.some.injEq]
    intro he
    exact h a (by rw [hd]; exact List.mem_cons_self a t) he

theorem splitext_fst_subset (b : String) : ∀ c ∈ (splitext b).1.data, c ∈ b.data := by
  intro c hc
  simp only [splitext] at hc
  split_ifs at hc
  · exact hc
  · rw [List.mem_append] at hc
    rcases hc with hc | hc
    · exact List.take_subset _ _ hc
    · have := List.take_subset _ _ hc
      rw [List.mem_reverse] at this
      have := (List.takeWhile_sublist _).subset this
      rwa [List.mem_reverse] at this
  · exact hc

theorem suffixed_head_ne_slash (b ts : String) (hb : ∀ c ∈ b.data, c ≠ '/') :
    ((splitext b).1 ++ "_" ++ ts ++ (splitext b).2).data.head? ≠ some '/' := by
  rw [String.data_append, String.data_append, String.data_append]
  cases h1 : (splitext b).1.data with
  | nil => simp [h1]
  | cons a t =>
    simp only [List.cons_append, List.head?, ne_eq, Option.some.injEq]
    intro he
    exact hb a (splitext_fst_subset b a (by rw [h1]; exact List.mem_cons_self a t)) he

theorem osJoin_length (a : String) {b : String} (hb : b.data.head? ≠ some '/') :
    (osJoin a b).length =
      (if (a == "" || a.data.getLast? == some '/') = true then a.length + b.length
       else a.length + 1 + b.length) := by
  unfold osJoin
  rw [if_neg (by simpa using hb)]
  have hsep : ("/" : String).length = 1 := rfl
  split_ifs with h2
  · simp
  · rw [String.length_append, String.length_append, hsep]

theorem osJoin_length_ne (a : String) {b₁ b₂ : String}
    (h₁ : b₁.data.head? ≠ some '/') (h₂ : b₂.data.head? ≠ some '/')
    (hlen : b₁.length ≠ b₂.length) : osJoin a b₁ ≠ osJoin a b₂ := by
  apply str_ne_of_length_ne
  rw [osJoin_length a h₁, osJoin_length a h₂]
  split_ifs <;> omega

theorem FS.lookup_mkdir (fs : FS) (d q : String) : (fs.mkdir d).lookup q = fs.lookup q := by
  unfold FS.mkdir FS.lookup
  split <;> rfl

theorem FS.mem_mkdir (fs : FS) (d : String) : d ∈ (fs.mkdir d).dirs := by
  unfold FS.mkdir
  by_cases h : fs.dirs.contains d = true
  · rw [if_pos h]
    exact List.elem_iff.mp h
  · rw [if_neg h]
    exact List.mem_cons_self d _

theorem FS.move_dirs (fs : FS) (src dst : String) : (fs.move src dst).dirs = fs.dirs := by
  unfold FS.move
  cases fs.files.lookup src <;> rfl

theorem FS.lookup_move_dst (fs : FS) (src dst : String) (i : FileInfo)
    (h : fs.lookup src = some i) : (fs.move src dst).lookup dst = some i := by
  unfold FS.move
  unfold FS.lookup at h
  rw [h]
  simp [FS.lookup, List.lookup]

end ZGallery

namespace ZGallery

/-! ## Success characterization of the ingestion pipeline -/

/-- When every step succeeds, the pipeline returns the new id and the
world with the moved file, the appended row (thumbnail name set) and the
recorded thumbnail. -/
theorem add_artwork_success_char (env : Env) (w : World) (p : String) (md : Metadata)
    (mv cd : Bool) (info : FileInfo) (cat₂ : Catalog) (nid : Nat)
    (hf : w.fs.lookup p = some info)
    (ha : truthyStr md.artist = true) (hpl : truthyStr md.platform = true)
    (hdup : dup_hit w md cd = false)
    (hins : insert_artwork w.catalog (ingest_row env w p md mv info) = .ok (cat₂, nid))
    (hth : info.thumbOk = true) :
    add_artwork_to_database env w p md mv cd =
      (⟨true, some nid, none⟩,
       { fs := (ingest_path env w p md mv).2,
         catalog := update_thumbnail cat₂ nid (thumbnail_name nid),
         thumbs := thumbnail_name nid :: w.thumbs }) := by
  unfold add_artwork_to_database
  rw [hf]
  simp only [ha, hpl, hdup, hins, hth, Bool.not_true, Bool.or_self, Bool.false_eq_true,
    if_false, if_true]

/-- A successful ingest implies every step's precondition held. -/
theorem add_artwork_success_inv (env : Env) (w : World) (p : String) (md : Metadata)
    (mv cd : Bool)
    (h : (add_artwork_to_database env w p md mv cd).1.success = true) :
    ∃ info cat₂ nid,
      w.fs.lookup p = some info ∧ truthyStr md.artist = true ∧ truthyStr md.platform = true ∧
      dup_hit w md cd = false ∧
      insert_artwork w.catalog (ingest_row env w p md mv info) = .ok (cat₂, nid) ∧
      info.thumbOk = true := by
  unfold add_artwork_to_database at h
  cases hf : w.fs.lookup p with
  | none => rw [hf] at h; exact absurd h (by simp [ingestErr])
  | some info =>
    rw [hf] at h
    simp only [] at h
    by_cases hv : (!truthyStr md.artist || !truthyStr md.platform) = true
    · rw [if_pos hv] at h; exact absurd h (by simp [ingestErr])
    · rw [if_neg hv] at h
      have ha : truthyStr md.artist = true := by
        cases hA : truthyStr md.artist
        · exact absurd (by rw [hA]; rfl) hv
        · rfl
      have hpl : truthyStr md.platform = true := by
        cases hB : truthyStr md.platform
        · exact absurd (by rw [hB]; simp) hv
        · rfl
      by_cases hdup : dup_hit w md cd = true
      · rw [if_pos hdup] at h; exact absurd h (by simp [ingestErr])
      · rw [if_neg hdup] at h
        have hdup' : dup_hit w md cd = false := by
          cases hD : dup_hit w md cd
          · rfl
          · exact absurd hD hdup
        cases hins : insert_artwork w.catalog (ingest_row env w p md mv info) with
        | error e => rw [hins] at h; exact absurd h (by simp [ingestErr])
        | ok pr =>
          obtain ⟨cat₂, nid⟩ := pr
          by_cases hth : info.thumbOk = true
          · exact ⟨info, cat₂, nid, rfl, ha, hpl, hdup', hins, hth⟩
          · rw [hins] at h
            simp only [] at h
            rw [if_neg hth] at h
            exact absurd h (by simp [ingestErr])

/-- A successful ingest assigns id `nextId` and bumps the counter. -/
theorem add_artwork_success_id (env : Env) (w : World) (p : String) (md : Metadata)
    (mv cd : Bool)
    (h : (add_artwork_to_database env w p md mv cd).1.success = true) :
    (add_artwork_to_database env w p md mv cd).1.artwork_id = some w.catalog.nextId ∧
    (add_artwork_to_database env w p md mv cd).2.catalog.nextId = w.catalog.nextId + 1 := by
  obtain ⟨info, cat₂, nid, hf, ha, hpl, hdup, hins, hth⟩ :=
    add_artwork_success_inv env w p md mv cd h
  rw [add_artwork_success_char env w p md mv cd info cat₂ nid hf ha hpl hdup hins hth]
  unfold insert_artwork at hins
  split_ifs at hins
  try simp only [reduceCtorEq] at hins
  obtain ⟨hcat, hnid⟩ := by simpa using hins
  subst hnid
  constructor
  · rfl
  · rw [← hcat]
    rfl

end ZGallery

namespace ZGallery

/-! ## Claim C3: exact-duplicate check and empty-title bypass -/

/-- C3: (1) with checking enabled, a truthy title and a stored row with
the same `(platform, artist, title)`, ingest fails with the duplicate
error and the world is untouched (no move, no insert); (2) with an
empty/absent title the result does not depend on `check_duplicate` at
all (the check is skipped); (3) two successive successful ingests are
assigned the consecutive, distinct ids `nextId` and `nextId + 1`. -/
theorem claim_C3 :
    (∀ (env : Env) (w : World) (p : String) (md : Metadata) (mv : Bool) (info : FileInfo),
      w.fs.lookup p = some info → truthyStr md.artist = true → truthyStr md.platform = true →
      truthyStr md.title = true →
      w.catalog.rows.any (fun r =>
        r.source_platform == md.platform.getD "" && r.artist == md.artist.getD "" &&
          r.title == some (md.title.getD "")) = true →
      add_artwork_to_database env w p md mv true =
        (ingestErr ("Duplicate: " ++ md.title.getD ""), w)) ∧
    (∀ (env : Env) (w : World) (p : String) (md : Metadata) (mv cd : Bool),
      truthyStr md.title = false →
      add_artwork_to_database env w p md mv cd = add_artwork_to_database env w p md mv false) ∧
    (∀ (env₁ env₂ : Env) (w : World) (p₁ p₂ : String) (md₁ md₂ : Metadata)
        (mv₁ mv₂ cd₁ cd₂ : Bool),
      (add_artwork_to_database env₁ w p₁ md₁ mv₁ cd₁).1.success = true →
      (add_artwork_to_database env₂ (add_artwork_to_database env₁ w p₁ md₁ mv₁ cd₁).2
        p₂ md₂ mv₂ cd₂).1.success = true →
      (add_artwork_to_database env₁ w p₁ md₁ mv₁ cd₁).1.artwork_id = some w.catalog.nextId ∧
      (add_artwork_to_database env₂ (add_artwork_to_database env₁ w p₁ md₁ mv₁ cd₁).2
        p₂ md₂ mv₂ cd₂).1.artwork_id = some (w.catalog.nextId + 1) ∧
      (add_artwork_to_database env₁ w p₁ md₁ mv₁ cd₁).1.artwork_id ≠
        (add_artwork_to_database env₂ (add_artwork_to_database env₁ w p₁ md₁ mv₁ cd₁).2
          p₂ md₂ mv₂ cd₂).1.artwork_id) := by
  refine ⟨?_, ?_, ?_⟩
  · intro env w p md mv info hf ha hpl ht hrow
    unfold add_artwork_to_database
    rw [hf]
    have hdup : dup_hit w md true = true := by simp [dup_hit, ht, hrow]
    simp only [ha, hpl, hdup, Bool.not_true, Bool.or_self, Bool.false_eq_true, if_false, if_true]
  · intro env w p md mv cd ht
    unfold add_artwork_to_database
    cases hf : w.fs.lookup p with
    | none => rfl
    | some info =>
      have h1 : dup_hit w md cd = false := by simp [dup_hit, ht]
      have h2 : dup_hit w md false = false := by simp [dup_hit, ht]
      simp only [h1, h2]
  · intro env₁ env₂ w p₁ p₂ md₁ md₂ mv₁ mv₂ cd₁ cd₂ hs₁ hs₂
    have h₁ := add_artwork_success_id env₁ w p₁ md₁ mv₁ cd₁ hs₁
    have h₂ := add_artwork_success_id env₂ _ p₂ md₂ mv₂ cd₂ hs₂
    refine ⟨h₁.1, ?_, ?_⟩
    · rw [h₂.1, h₁.2]
    · rw [h₁.1, h₂.1, h₁.2]
      simp
  
/-- C3 witness: a concrete duplicate hit leaves the world unchanged, and
two concrete empty-title ingests with identical artist and platform both
succeed with the distinct ids 1 and 2. -/
theorem claim_C3_witness :
    add_artwork_to_database ⟨⟨2024, 6, 1, 12, 0, 0⟩, "ts"⟩
      ⟨⟨[("a.jpg", { ctime := ⟨2022, 1, 1, 0, 0, 0⟩ })], []⟩,
       ⟨[{ id := 1, file_path := "f", file_name := "f", title := some "T", artist := "A",
           source_platform := "P", tags := "", description := "", rating := none,
           category := "fanart_non_comic", classification := none,
           creation_date := some ⟨2022, 1, 1, 0, 0, 0⟩, publication_date := none,
           last_modified_date := ⟨2022, 1, 1, 0, 0, 0⟩, phash := none, source_url := none,
           thumbnail_filename := none }], 2⟩, []⟩
      "a.jpg" { artist := some "A", platform := some "P", title := some "T" } true true =
      (ingestErr ("Duplicate: " ++
        ({ artist := some "A", platform := some "P", title := some "T" } : Metadata).title.getD ""),
       ⟨⟨[("a.jpg", { ctime := ⟨2022, 1, 1, 0, 0, 0⟩ })], []⟩,
        ⟨[{ id := 1, file_path := "f", file_name := "f", title := some "T", artist := "A",
            source_platform := "P", tags := "", description := "", rating := none,
            category := "fanart_non_comic", classification := none,
            creation_date := some ⟨2022, 1, 1, 0, 0, 0⟩, publication_date := none,
            last_modified_date := ⟨2022, 1, 1, 0, 0, 0⟩, phash := none, source_url := none,
            thumbnail_filename := none }], 2⟩, []⟩) ∧
    (add_artwork_to_database ⟨⟨2024, 6, 1, 12, 0, 0⟩, "ts"⟩
      ⟨⟨[("a.jpg", { ctime := ⟨2022, 1, 1, 0, 0, 0⟩ }),
         ("b.jpg", { ctime := ⟨2022, 1, 1, 0, 0, 0⟩ })], []⟩, ⟨[], 1⟩, []⟩
      "a.jpg" { artist := some "A", platform := some "P" } false true).1.artwork_id =
      some 1 ∧
    (add_artwork_to_database ⟨⟨2024, 6, 1, 12, 0, 0⟩, "ts"⟩
      (add_artwork_to_database ⟨⟨2024, 6, 1, 12, 0, 0⟩, "ts"⟩
        ⟨⟨[("a.jpg", { ctime := ⟨2022, 1, 1, 0, 0, 0⟩ }),
           ("b.jpg", { ctime := ⟨2022, 1, 1, 0, 0, 0⟩ })], []⟩, ⟨[], 1⟩, []⟩
        "a.jpg" { artist := some "A", platform := some "P" } false true).2
      "b.jpg" { artist := some "A", platform := some "P" } false true).1.artwork_id =
      some (1 + 1) ∧
    (add_artwork_to_database ⟨⟨2024, 6, 1, 12, 0, 0⟩, "ts"⟩
      ⟨⟨[("a.jpg", { ctime := ⟨2022, 1, 1, 0, 0, 0⟩ }),
         ("b.jpg", { ctime := ⟨2022, 1, 1, 0, 0, 0⟩ })], []⟩, ⟨[], 1⟩, []⟩
      "a.jpg" { artist := some "A", platform := some "P" } false true).1.artwork_id ≠
    (add_artwork_to_database ⟨⟨2024, 6, 1, 12, 0, 0⟩, "ts"⟩
      (add_artwork_to_database ⟨⟨2024, 6, 1, 12, 0, 0⟩, "ts"⟩
        ⟨⟨[("a.jpg", { ctime := ⟨2022, 1, 1, 0, 0, 0⟩ }),
           ("b.jpg", { ctime := ⟨2022, 1, 1, 0, 0, 0⟩ })], []⟩, ⟨[], 1⟩, []⟩
        "a.jpg" { artist := some "A", platform := some "P" } false true).2
      "b.jpg" { artist := some "A", platform := some "P" } false true).1.artwork_id := by
  have hd := claim_C3.1 ⟨⟨2024, 6, 1, 12, 0, 0⟩, "ts"⟩
    ⟨⟨[("a.jpg", { ctime := ⟨2022, 1, 1, 0, 0, 0⟩ })], []⟩,
     ⟨[{ id := 1, file_path := "f", file_name := "f", title := some "T", artist := "A",
         source_platform := "P", tags := "", description := "", rating := none,
         category := "fanart_non_comic", classification := none,
         creation_date := some ⟨2022, 1, 1, 0, 0, 0⟩, publication_date := none,
         last_modified_date := ⟨2022, 1, 1, 0, 0, 0⟩, phash := none, source_url := none,
         thumbnail_filename := none }], 2⟩, []⟩
    "a.jpg" { artist := some "A", platform := some "P", title := some "T" } true
    { ctime := ⟨2022, 1, 1, 0, 0, 0⟩ } (by decide) (by decide) (by decide) (by decide) (by decide)
  have hids := claim_C3.2.2 ⟨⟨2024, 6, 1, 12, 0, 0⟩, "ts"⟩ ⟨⟨2024, 6, 1, 12, 0, 0⟩, "ts"⟩
    ⟨⟨[("a.jpg", { ctime := ⟨2022, 1, 1, 0, 0, 0⟩ }),
       ("b.jpg", { ctime := ⟨2022, 1, 1, 0, 0, 0⟩ })], []⟩, ⟨[], 1⟩, []⟩
    "a.jpg" "b.jpg" { artist := some "A", platform := some "P" }
    { artist := some "A", platform := some "P" } false false true true (by decide) (by decide)
  exact ⟨hd, hids.1, hids.2.1, hids.2.2⟩

end ZGallery

namespace ZGallery

/-! ## Claim C2 (amended): thumbnail failure aborts the call -/

/-- C2 (corrected): when the insert succeeds but thumbnail generation
raises, the call returns a failure and the catalog write is rolled back
— no catalog row persists (the file move, however, is not reversed). -/
theorem claim_C2 (env : Env) (w : World) (p : String) (md : Metadata) (mv cd : Bool)
    (info : FileInfo) (cat₂ : Catalog) (nid : Nat)
    (hf : w.fs.lookup p = some info)
    (ha : truthyStr md.artist = true) (hpl : truthyStr md.platform = true)
    (hdup : dup_hit w md cd = false)
    (hins : insert_artwork w.catalog (ingest_row env w p md mv info) = .ok (cat₂, nid))
    (hth : info.thumbOk = false) :
    (add_artwork_to_database env w p md mv cd).1.success = false ∧
    (add_artwork_to_database env w p md mv cd).1.error = some "thumbnail generation failed" ∧
    (add_artwork_to_database env w p md mv cd).2.catalog = w.catalog := by
  unfold add_artwork_to_database
  rw [hf]
  simp only [ha, hpl, hdup, hins, hth, Bool.not_true, Bool.or_self, Bool.false_eq_true,
    if_false, if_true, ingestErr]
  exact ⟨trivial, trivial, trivial⟩

/-- C2 witness: concrete instantiation of the rollback-on-thumbnail-
failure behavior. -/
theorem claim_C2_witness :
    (add_artwork_to_database ⟨⟨2024, 6, 1, 12, 0, 0⟩, "ts"⟩
      ⟨⟨[("b.jpg", { ctime := ⟨2022, 1, 1, 0, 0, 0⟩, thumbOk := false })], []⟩, ⟨[], 1⟩, []⟩
      "b.jpg" { artist := some "A", platform := some "P" } false true).1.success = false ∧
    (add_artwork_to_database ⟨⟨2024, 6, 1, 12, 0, 0⟩, "ts"⟩
      ⟨⟨[("b.jpg", { ctime := ⟨2022, 1, 1, 0, 0, 0⟩, thumbOk := false })], []⟩, ⟨[], 1⟩, []⟩
      "b.jpg" { artist := some "A", platform := some "P" } false true).1.error =
      some "thumbnail generation failed" ∧
    (add_artwork_to_database ⟨⟨2024, 6, 1, 12, 0, 0⟩, "ts"⟩
      ⟨⟨[("b.jpg", { ctime := ⟨2022, 1, 1, 0, 0, 0⟩, thumbOk := false })], []⟩, ⟨[], 1⟩, []⟩
      "b.jpg" { artist := some "A", platform := some "P" } false true).2.catalog = ⟨[], 1⟩ :=
  claim_C2 ⟨⟨2024, 6, 1, 12, 0, 0⟩, "ts"⟩
    ⟨⟨[("b.jpg", { ctime := ⟨2022, 1, 1, 0, 0, 0⟩, thumbOk := false })], []⟩, ⟨[], 1⟩, []⟩
    "b.jpg" { artist := some "A", platform := some "P" } false true
    { ctime := ⟨2022, 1, 1, 0, 0, 0⟩, thumbOk := false }
    ⟨[{ id := 1, file_path := "b.jpg", file_name := "b.jpg", title := none, artist := "A",
        source_platform := "P", tags := "", description := "", rating := none,
        category := "fanart_non_comic", classification := none,
        creation_date := some ⟨2022, 1, 1, 0, 0, 0⟩,
        publication_date := some ⟨2022, 1, 1, 0, 0, 0⟩,
        last_modified_date := ⟨2024, 6, 1, 12, 0, 0⟩, phash := none, source_url := none,
        thumbnail_filename := none }], 2⟩ 1
    (by decide) (by decide) (by decide) (by decide) (by rfl) (by decide)

/-! ## Claim C10 (amended): unparseable non-empty creation_date aborts -/

/-- C10 (corrected): supplying `creation_date` as a *non-empty* string
matching none of the five formats makes the whole ingestion fail (the
`NOT NULL` constraint on `creation_date` rejects the insert) and leaves
the catalog unchanged. (An empty string is falsy in Python and falls
back to filesystem time instead — see the counterexample.) -/
theorem claim_C10 (env : Env) (w : World) (p : String) (md : Metadata) (mv cd : Bool)
    (s : String) (hc : md.creation_date = some (.str s)) (hs : s ≠ "")
    (hp : parse_date (.str s) = none) :
    (add_artwork_to_database env w p md mv cd).1.success = false ∧
    (add_artwork_to_database env w p md mv cd).2.catalog = w.catalog := by
  unfold add_artwork_to_database
  cases hf : w.fs.lookup p with
  | none => exact ⟨rfl, rfl⟩
  | some info =>
    simp only []
    by_cases hv : (!truthyStr md.artist || !truthyStr md.platform) = true
    · rw [if_pos hv]
      exact ⟨rfl, rfl⟩
    · rw [if_neg hv]
      by_cases hdup : dup_hit w md cd = true
      · rw [if_pos hdup]
        exact ⟨rfl, rfl⟩
      · rw [if_neg hdup]
        have hrow : (ingest_row env w p md mv info).creation_date = none := by
          simp [ingest_row, prepare_dates, truthyDate, hc, hs, hp]
        have hins : insert_artwork w.catalog (ingest_row env w p md mv info) =
            .error "NOT NULL constraint failed: artworks.creation_date" := by
          simp [insert_artwork, hrow]
        rw [hins]
        exact ⟨rfl, rfl⟩

/-- C10 witness: a concrete unparseable date string fails the ingest and
leaves the catalog empty. -/
theorem claim_C10_witness :
    (add_artwork_to_database ⟨⟨2024, 6, 1, 12, 0, 0⟩, "ts"⟩
      ⟨⟨[("a.jpg", { ctime := ⟨2022, 1, 1, 0, 0, 0⟩ })], []⟩, ⟨[], 1⟩, []⟩
      "a.jpg" { artist := some "A", platform := some "P",
                creation_date := some (.str "2020/12/31") } false true).1.success = false ∧
    (add_artwork_to_database ⟨⟨2024, 6, 1, 12, 0, 0⟩, "ts"⟩
      ⟨⟨[("a.jpg", { ctime := ⟨2022, 1, 1, 0, 0, 0⟩ })], []⟩, ⟨[], 1⟩, []⟩
      "a.jpg" { artist := some "A", platform := some "P",
                creation_date := some (.str "2020/12/31") } false true).2.catalog = ⟨[], 1⟩ :=
  claim_C10 ⟨⟨2024, 6, 1, 12, 0, 0⟩, "ts"⟩
    ⟨⟨[("a.jpg", { ctime := ⟨2022, 1, 1, 0, 0, 0⟩ })], []⟩, ⟨[], 1⟩, []⟩
    "a.jpg" { artist := some "A", platform := some "P",
              creation_date := some (.str "2020/12/31") } false true
    "2020/12/31" (by decide) (by decide) (by decide)

end ZGallery

namespace ZGallery

/-! ## Claim C4 (amended): how the pipeline actually resolves dates -/

/-- C4 (corrected): on a successful ingest the stored row's
`creation_date` is the parsed metadata date when a truthy one is
supplied and otherwise the placed file's *filesystem ctime* — the §4.2
EXIF/filename chain is not applied to `creation_date`;
`publication_date` comes from the metadata if truthy, else from the
file's EXIF capture date, else equals `creation_date`; and
`last_modified_date` is the current time. -/
theorem claim_C4 (env : Env) (w : World) (p : String) (md : Metadata) (mv cd : Bool)
    (info : FileInfo) (cat₂ : Catalog) (nid : Nat)
    (hf : w.fs.lookup p = some info)
    (ha : truthyStr md.artist = true) (hpl : truthyStr md.platform = true)
    (hdup : dup_hit w md cd = false)
    (hins : insert_artwork w.catalog (ingest_row env w p md mv info) = .ok (cat₂, nid))
    (hth : info.thumbOk = true) :
    ∃ r ∈ (add_artwork_to_database env w p md mv cd).2.catalog.rows,
      r.id = nid ∧
      r.creation_date = (if truthyDate md.creation_date then
          parse_date (md.creation_date.getD (.str "")) else some info.ctime) ∧
      r.publication_date = (if truthyDate md.publication_date then
          parse_date (md.publication_date.getD (.str ""))
        else match extract_exif_date info.exifTags with
          | some e => some e
          | none => if truthyDate md.creation_date then
              parse_date (md.creation_date.getD (.str "")) else some info.ctime) ∧
      r.last_modified_date = env.now := by
  rw [add_artwork_success_char env w p md mv cd info cat₂ nid hf ha hpl hdup hins hth]
  unfold insert_artwork at hins
  split_ifs at hins
  try simp only [reduceCtorEq] at hins
  obtain ⟨hcat, hnid⟩ := by simpa using hins
  subst hnid
  refine ⟨{ (ingest_row env w p md mv info) with id := w.catalog.nextId, thumbnail_filename := some (thumbnail_name w.catalog.nextId) }, ?_, rfl, ?_, ?_, ?_⟩
  · rw [← hcat]
    simp only [update_thumbnail]
    refine List.mem_map.mpr
      ⟨{ (ingest_row env w p md mv info) with id := w.catalog.nextId },
        List.mem_append_right _ (by simp), by simp⟩
  · simp [ingest_row, prepare_dates]
  · simp [ingest_row, prepare_dates]
  · simp [ingest_row, prepare_dates]

/-- C4 witness: concrete successful ingest (no metadata dates): the row
stores ctime as `creation_date`, the EXIF date as `publication_date`,
and "now" as `last_modified_date`. -/
theorem claim_C4_witness :
    ∃ r ∈ (add_artwork_to_database ⟨⟨2024, 6, 1, 12, 0, 0⟩, "ts"⟩
        ⟨⟨[("pics/2020-05-06_art.jpg",
            { exifTags := some [(36867, "2021:03:04 05:06:07")],
              ctime := ⟨2022, 1, 1, 0, 0, 0⟩ })], []⟩, ⟨[], 1⟩, []⟩
        "pics/2020-05-06_art.jpg" { artist := some "A", platform := some "P" }
        false true).2.catalog.rows,
      r.id = 1 ∧
      r.creation_date = (if truthyDate ({ artist := some "A", platform := some "P" } :
          Metadata).creation_date then
          parse_date (({ artist := some "A", platform := some "P" } :
            Metadata).creation_date.getD (.str ""))
        else some (⟨2022, 1, 1, 0, 0, 0⟩ : PyDateTime)) ∧
      r.publication_date = (if truthyDate ({ artist := some "A", platform := some "P" } :
          Metadata).publication_date then
          parse_date (({ artist := some "A", platform := some "P" } :
            Metadata).publication_date.getD (.str ""))
        else match extract_exif_date (some [(36867, "2021:03:04 05:06:07")]) with
          | some e => some e
          | none => if truthyDate ({ artist := some "A", platform := some "P" } :
              Metadata).creation_date then
              parse_date (({ artist := some "A", platform := some "P" } :
                Metadata).creation_date.getD (.str ""))
            else some (⟨2022, 1, 1, 0, 0, 0⟩ : PyDateTime)) ∧
      r.last_modified_date = (⟨2024, 6, 1, 12, 0, 0⟩ : PyDateTime) :=
  claim_C4 ⟨⟨2024, 6, 1, 12, 0, 0⟩, "ts"⟩
    ⟨⟨[("pics/2020-05-06_art.jpg",
        { exifTags := some [(36867, "2021:03:04 05:06:07")],
          ctime := ⟨2022, 1, 1, 0, 0, 0⟩ })], []⟩, ⟨[], 1⟩, []⟩
    "pics/2020-05-06_art.jpg" { artist := some "A", platform := some "P" } false true
    { exifTags := some [(36867, "2021:03:04 05:06:07")], ctime := ⟨2022, 1, 1, 0, 0, 0⟩ }
    ⟨[{ id := 1, file_path := "pics/2020-05-06_art.jpg",
        file_name := "2020-05-06_art.jpg", title := none, artist := "A",
        source_platform := "P", tags := "", description := "", rating := none,
        category := "fanart_non_comic", classification := none,
        creation_date := some ⟨2022, 1, 1, 0, 0, 0⟩,
        publication_date := some ⟨2021, 3, 4, 5, 6, 7⟩,
        last_modified_date := ⟨2024, 6, 1, 12, 0, 0⟩, phash := none, source_url := none,
        thumbnail_filename := none }], 2⟩ 1
    (by decide) (by decide) (by decide) (by decide) (by rfl) (by decide)

end ZGallery

namespace ZGallery

/-! ## Claim C9: fingerprints are immutable once set -/

/-- The thumbnail-name update leaves every row's `(id, phash)` alone. -/
theorem update_thumbnail_map_idphash (c : Catalog) (i : Nat) (n : String) :
    (update_thumbnail c i n).rows.map (fun r => (r.id, r.phash)) =
      c.rows.map (fun r => (r.id, r.phash)) := by
  unfold update_thumbnail
  rw [List.map_map]
  congr 1
  funext r
  by_cases h : r.id = i <;> simp [h]

/-- One backfill iteration with an existing, decodable file is exactly
the phash `UPDATE` for that record's id. -/
theorem backfill_step_eq (fs : FS) (c : Catalog) (rec : Nat × String) (info : FileInfo)
    (h : String) (hlk : fs.lookup (ghNormalize fs rec.2) = some info)
    (hph : info.phash = some h) :
    backfill_step fs c rec =
      { c with rows := c.rows.map (fun row =>
          if row.id == rec.1 then { row with phash := some h } else row) } := by
  unfold backfill_step
  rw [hlk]
  simp only []
  rw [hph]

/-- A row whose id differs from the record's survives one backfill
iteration unchanged. -/
theorem mem_backfill_step (fs : FS) (c : Catalog) (rec : Nat × String) (r : Row)
    (hr : r ∈ c.rows) (hne : rec.1 ≠ r.id) : r ∈ (backfill_step fs c rec).rows := by
  unfold backfill_step
  cases hl : fs.lookup (ghNormalize fs rec.2) with
  | none => exact hr
  | some info =>
    simp only []
    cases hp : info.phash with
    | none => exact hr
    | some h =>
      simp only []
      have hb : (r.id == rec.1) = false :=
        beq_eq_false_iff_ne.mpr (fun he => hne he.symm)
      have hcong : (if (r.id == rec.1) = true then { r with phash := some h } else r) = r := by
        rw [hb]
        simp
      exact hcong ▸ List.mem_map_of_mem _ hr

/-- A row whose id none of the records mention survives the backfill
loop unchanged. -/
theorem backfill_loop_untouched (fs : FS) :
    ∀ (recs : List (Nat × String)) (c : Catalog) (r : Row),
      r ∈ c.rows → (∀ rec ∈ recs, rec.1 ≠ r.id) →
      r ∈ (recs.foldl (backfill_step fs) c).rows := by
  intro recs
  induction recs with
  | nil => intro c r hr _; simpa using hr
  | cons rec rest ih =>
    intro c r hr hids
    rw [List.foldl_cons]
    exact ih _ r (mem_backfill_step fs c rec r hr (hids rec (List.mem_cons_self rec rest)))
      (fun rec' h' => hids rec' (List.mem_cons_of_mem _ h'))

/-- A row whose `(id, file_path)` record is in the loop's list (ids
pairwise distinct) and whose file decodes ends with its phash set. -/
theorem backfill_loop_sets (fs : FS) :
    ∀ (recs : List (Nat × String)) (c : Catalog) (r : Row) (info : FileInfo) (h : String),
      r ∈ c.rows → (r.id, r.file_path) ∈ recs →
      recs.Pairwise (fun a b => a.1 ≠ b.1) →
      fs.lookup (ghNormalize fs r.file_path) = some info → info.phash = some h →
      { r with phash := some h } ∈ (recs.foldl (backfill_step fs) c).rows := by
  intro recs
  induction recs with
  | nil => intro c r info h _ hmem _ _ _; simp at hmem
  | cons rec rest ih =>
    intro c r info h hr hmem hpw hlk hph
    rw [List.foldl_cons]
    rcases List.mem_cons.mp hmem with heq | hmem'
    · have h1 : rec.1 = r.id := by rw [← heq]
      have h2 : rec.2 = r.file_path := by rw [← heq]
      rw [backfill_step_eq fs c rec info h (by rw [h2]; exact hlk) hph]
      have hr' : { r with phash := some h } ∈ (c.rows.map (fun row =>
          if row.id == rec.1 then { row with phash := some h } else row)) := by
        have hb : (r.id == rec.1) = true := by rw [h1]; simp
        have hcong : (if (r.id == rec.1) = true then { r with phash := some h } else r) =
            { r with phash := some h } := by rw [hb]; simp
        exact hcong ▸ List.mem_map_of_mem _ hr
      apply backfill_loop_untouched fs rest _ _ hr'
      intro rec' hrec'
      show rec'.1 ≠ r.id
      rw [← h1]
      have hne := (List.pairwise_cons.mp hpw).1 rec' hrec'
      exact fun he => hne he.symm
    · have hne : rec.1 ≠ r.id := by
        have := (List.pairwise_cons.mp hpw).1 (r.id, r.file_path) hmem'
        exact this
      exact ih _ r info h (mem_backfill_step fs c rec r hr hne) hmem'
        (List.pairwise_cons.mp hpw).2 hlk hph

/-- C9: (1) the ingestion path never rewrites an existing row's
fingerprint — the `(id, phash)` column of the pre-existing rows is
preserved verbatim (at most one new row is appended); (2) the backfill
pass leaves every row that already has a fingerprint untouched; (3) a
row with a null fingerprint whose file decodes ends the (unlimited)
backfill with exactly the computed hash set. -/
theorem claim_C9 :
    (∀ (env : Env) (w : World) (p : String) (md : Metadata) (mv cd : Bool),
      ∃ tail, (add_artwork_to_database env w p md mv cd).2.catalog.rows.map
          (fun r => (r.id, r.phash)) =
        w.catalog.rows.map (fun r => (r.id, r.phash)) ++ tail) ∧
    (∀ (fs : FS) (cat : Catalog) (limit : Option Nat) (r : Row),
      cat.rows.Pairwise (fun a b => a.id ≠ b.id) → r ∈ cat.rows →
      r.phash.isSome = true → r ∈ (backfill_hashes fs cat limit).rows) ∧
    (∀ (fs : FS) (cat : Catalog) (r : Row) (info : FileInfo) (h : String),
      cat.rows.Pairwise (fun a b => a.id ≠ b.id) → r ∈ cat.rows → r.phash = none →
      fs.lookup (ghNormalize fs r.file_path) = some info → info.phash = some h →
      { r with phash := some h } ∈ (backfill_hashes fs cat none).rows) := by
  refine ⟨?_, ?_, ?_⟩
  · intro env w p md mv cd
    unfold add_artwork_to_database
    cases hf : w.fs.lookup p with
    | none => exact ⟨[], by simp⟩
    | some info =>
      simp only []
      by_cases hv : (!truthyStr md.artist || !truthyStr md.platform) = true
      · rw [if_pos hv]
        exact ⟨[], by simp⟩
      · rw [if_neg hv]
        by_cases hdup : dup_hit w md cd = true
        · rw [if_pos hdup]
          exact ⟨[], by simp⟩
        · rw [if_neg hdup]
          cases hins : insert_artwork w.catalog (ingest_row env w p md mv info) with
          | error e => exact ⟨[], by simp⟩
          | ok pr =>
            obtain ⟨cat₂, nid⟩ := pr
            by_cases hth : info.thumbOk = true
            · simp only [hth, if_true]
              unfold insert_artwork at hins
              split_ifs at hins
              try simp only [reduceCtorEq] at hins
              obtain ⟨hcat, hnid⟩ := by simpa using hins
              subst hnid
              rw [← hcat]
              refine ⟨[(w.catalog.nextId, info.phash)], ?_⟩
              rw [update_thumbnail_map_idphash]
              simp [ingest_row]
            · simp only [hth, Bool.false_eq_true, if_false]
              exact ⟨[], by simp⟩
  · intro fs cat limit r hpw hr hps
    unfold backfill_hashes
    apply backfill_loop_untouched
    · exact hr
    · intro rec hrec
      have hrec' : rec ∈ (cat.rows.filter (fun x => x.phash.isNone)).map
          (fun x => (x.id, x.file_path)) := by
        cases limit with
        | none => exact hrec
        | some n => exact List.take_subset _ _ hrec
      obtain ⟨r₀, hr₀, heq⟩ := List.mem_map.mp hrec'
      obtain ⟨hr₀m, hr₀p⟩ := List.mem_filter.mp hr₀
      have hne : r₀ ≠ r := by
        intro he
        rw [he] at hr₀p
        rw [Option.isSome_iff_exists] at hps
        obtain ⟨v, hv⟩ := hps
        rw [hv] at hr₀p
        simp at hr₀p
      have hids := hpw.forall (fun a b hab => hab.symm) hr₀m hr hne
      rw [← heq]
      exact hids
  · intro fs cat r info h hpw hr hps hlk hph
    unfold backfill_hashes
    refine backfill_loop_sets fs _ _ r info h hr ?_ ?_ hlk hph
    · apply List.mem_map.mpr
      refine ⟨r, ?_, rfl⟩
      rw [List.mem_filter]
      exact ⟨hr, by rw [hps]; rfl⟩
    · rw [List.pairwise_map]
      apply List.Pairwise.filter
      exact hpw

end ZGallery

namespace ZGallery

/-- C9 witness: concrete instantiations — ingest preserves the existing
`(id, phash)` column; backfill keeps a fingerprinted row and fills a
null one with its file's hash. -/
theorem claim_C9_witness :
    (∃ tail, (add_artwork_to_database ⟨⟨2024, 6, 1, 12, 0, 0⟩, "ts"⟩
        ⟨⟨[("a.jpg", { ctime := ⟨2022, 1, 1, 0, 0, 0⟩ })], []⟩,
         ⟨[{ id := 1, file_path := "f", file_name := "f", title := none, artist := "A",
             source_platform := "P", tags := "", description := "", rating := none,
             category := "fanart_non_comic", classification := none,
             creation_date := some ⟨2022, 1, 1, 0, 0, 0⟩, publication_date := none,
             last_modified_date := ⟨2022, 1, 1, 0, 0, 0⟩, phash := some "cafe",
             source_url := none, thumbnail_filename := none }], 2⟩, []⟩
        "a.jpg" { artist := some "A", platform := some "P" } false true).2.catalog.rows.map
          (fun r => (r.id, r.phash)) = [((1 : Nat), some "cafe")] ++ tail) ∧
    (({ id := 1, file_path := "f", file_name := "f", title := none, artist := "A",
        source_platform := "P", tags := "", description := "", rating := none,
        category := "fanart_non_comic", classification := none,
        creation_date := some ⟨2022, 1, 1, 0, 0, 0⟩, publication_date := none,
        last_modified_date := ⟨2022, 1, 1, 0, 0, 0⟩, phash := some "cafe",
        source_url := none, thumbnail_filename := none } : Row) ∈
      (backfill_hashes ⟨[("g", { ctime := ⟨2022, 1, 1, 0, 0, 0⟩, phash := some "beef" })], []⟩
        ⟨[{ id := 1, file_path := "f", file_name := "f", title := none, artist := "A",
            source_platform := "P", tags := "", description := "", rating := none,
            category := "fanart_non_comic", classification := none,
            creation_date := some ⟨2022, 1, 1, 0, 0, 0⟩, publication_date := none,
            last_modified_date := ⟨2022, 1, 1, 0, 0, 0⟩, phash := some "cafe",
            source_url := none, thumbnail_filename := none },
          { id := 2, file_path := "g", file_name := "g", title := none, artist := "A",
            source_platform := "P", tags := "", description := "", rating := none,
            category := "fanart_non_comic", classification := none,
            creation_date := some ⟨2022, 1, 1, 0, 0, 0⟩, publication_date := none,
            last_modified_date := ⟨2022, 1, 1, 0, 0, 0⟩, phash := none,
            source_url := none, thumbnail_filename := none }], 3⟩ (some 5)).rows) ∧
    ({ ({ id := 2, file_path := "g", file_name := "g", title := none, artist := "A",
          source_platform := "P", tags := "", description := "", rating := none,
          category := "fanart_non_comic", classification := none,
          creation_date := some ⟨2022, 1, 1, 0, 0, 0⟩, publication_date := none,
          last_modified_date := ⟨2022, 1, 1, 0, 0, 0⟩, phash := none,
          source_url := none, thumbnail_filename := none } : Row) with phash := some "beef" } ∈
      (backfill_hashes ⟨[("g", { ctime := ⟨2022, 1, 1, 0, 0, 0⟩, phash := some "beef" })], []⟩
        ⟨[{ id := 1, file_path := "f", file_name := "f", title := none, artist := "A",
            source_platform := "P", tags := "", description := "", rating := none,
            category := "fanart_non_comic", classification := none,
            creation_date := some ⟨2022, 1, 1, 0, 0, 0⟩, publication_date := none,
            last_modified_date := ⟨2022, 1, 1, 0, 0, 0⟩, phash := some "cafe",
            source_url := none, thumbnail_filename := none },
          { id := 2, file_path := "g", file_name := "g", title := none, artist := "A",
            source_platform := "P", tags := "", description := "", rating := none,
            category := "fanart_non_comic", classification := none,
            creation_date := some ⟨2022, 1, 1, 0, 0, 0⟩, publication_date := none,
            last_modified_date := ⟨2022, 1, 1, 0, 0, 0⟩, phash := none,
            source_url := none, thumbnail_filename := none }], 3⟩ none).rows) := by
  refine ⟨?_, ?_, ?_⟩
  · exact claim_C9.1 ⟨⟨2024, 6, 1, 12, 0, 0⟩, "ts"⟩
      ⟨⟨[("a.jpg", { ctime := ⟨2022, 1, 1, 0, 0, 0⟩ })], []⟩,
       ⟨[{ id := 1, file_path := "f", file_name := "f", title := none, artist := "A",
           source_platform := "P", tags := "", description := "", rating := none,
           category := "fanart_non_comic", classification := none,
           creation_date := some ⟨2022, 1, 1, 0, 0, 0⟩, publication_date := none,
           last_modified_date := ⟨2022, 1, 1, 0, 0, 0⟩, phash := some "cafe",
           source_url := none, thumbnail_filename := none }], 2⟩, []⟩
      "a.jpg" { artist := some "A", platform := some "P" } false true
  · exact claim_C9.2.1 _ _ (some 5) _ (by decide) (by simp) (by decide)
  · exact claim_C9.2.2 _ _ _ { ctime := ⟨2022, 1, 1, 0, 0, 0⟩, phash := some "beef" } "beef"
      (by decide) (by simp) (by decide) (by decide) (by decide)

end ZGallery

namespace ZGallery

/-! ## Claim C6: collision-safe placement -/

/-- The disambiguated file name is strictly longer than the original, so
the suffixed target path differs in length from the occupied one. -/
theorem suffixed_target_length_ne (dir base ts : String) (hb : ∀ c ∈ base.data, c ≠ '/') :
    (osJoin dir ((splitext base).1 ++ "_" ++ ts ++ (splitext base).2)).length ≠
      (osJoin dir base).length := by
  rw [osJoin_length dir (suffixed_head_ne_slash base ts hb),
    osJoin_length dir (head_ne_slash_of_no_slash hb)]
  have h1 := splitext_length base
  have h2 : ((splitext base).1 ++ "_" ++ ts ++ (splitext base).2).length =
      (splitext base).1.length + 1 + ts.length + (splitext base).2.length := by
    rw [String.length_append, String.length_append, String.length_append]
    have hu : ("_" : String).length = 1 := rfl
    omega
  split_ifs <;> omega

/-- The suffixed storage path differs from the occupied one, before and
after separator normalization. -/
theorem normalize_suffixed_ne (dir base ts : String) (hb : ∀ c ∈ base.data, c ≠ '/') :
    normalize_path (osJoin dir ((splitext base).1 ++ "_" ++ ts ++ (splitext base).2)) ≠
      normalize_path (osJoin dir base) := by
  apply str_ne_of_length_ne
  rw [normalize_length, normalize_length]
  exact suffixed_target_length_ne dir base ts hb

/-- `place` always records the target directory. -/
theorem place_mkdir (env : Env) (fs : FS) (p pf ar : String) :
    osJoin (osJoin IMAGES_ROOT_FOLDER pf) ar ∈ (place env fs p pf ar).2.dirs := by
  simp only [place]
  split
  · rw [FS.move_dirs]; exact FS.mem_mkdir _ _
  · rw [FS.move_dirs]; exact FS.mem_mkdir _ _

/-- With a free target, `place` moves the file to the plain target path. -/
theorem place_free (env : Env) (fs : FS) (p pf ar : String)
    (hfree : fs.lookup (osJoin (osJoin (osJoin IMAGES_ROOT_FOLDER pf) ar) (basename p)) =
      none) :
    place env fs p pf ar =
      (osJoin (osJoin (osJoin IMAGES_ROOT_FOLDER pf) ar) (basename p),
       (fs.mkdir (osJoin (osJoin IMAGES_ROOT_FOLDER pf) ar)).move p
         (osJoin (osJoin (osJoin IMAGES_ROOT_FOLDER pf) ar) (basename p))) := by
  simp only [place, FS.lookup_mkdir, hfree, Option.isSome_none, Bool.false_eq_true, if_false]

/-- With the target occupied, `place` disambiguates the base name with
the timestamp suffix. -/
theorem place_occupied (env : Env) (fs : FS) (p pf ar : String)
    (hocc : (fs.lookup (osJoin (osJoin (osJoin IMAGES_ROOT_FOLDER pf) ar)
      (basename p))).isSome = true) :
    place env fs p pf ar =
      (osJoin (osJoin (osJoin IMAGES_ROOT_FOLDER pf) ar)
         ((splitext (basename p)).1 ++ "_" ++ env.nowTs ++ (splitext (basename p)).2),
       (fs.mkdir (osJoin (osJoin IMAGES_ROOT_FOLDER pf) ar)).move p
         (osJoin (osJoin (osJoin IMAGES_ROOT_FOLDER pf) ar)
           ((splitext (basename p)).1 ++ "_" ++ env.nowTs ++ (splitext (basename p)).2))) := by
  simp only [place, FS.lookup_mkdir, hocc, if_true]

end ZGallery

namespace ZGallery

/-- Row-level description of a successful ingest: the result's rows are
the old rows plus the new row (id `nextId`), with the thumbnail-name
update applied; the filesystem is the placement result. -/
theorem add_artwork_success_rows (env : Env) (w : World) (p : String) (md : Metadata)
    (mv cd : Bool) (info : FileInfo) (cat₂ : Catalog) (nid : Nat)
    (hf : w.fs.lookup p = some info)
    (ha : truthyStr md.artist = true) (hpl : truthyStr md.platform = true)
    (hdup : dup_hit w md cd = false)
    (hins : insert_artwork w.catalog (ingest_row env w p md mv info) = .ok (cat₂, nid))
    (hth : info.thumbOk = true) :
    (add_artwork_to_database env w p md mv cd).2.catalog.rows =
      (w.catalog.rows ++ [{ (ingest_row env w p md mv info) with id := nid }]).map
        (fun r : Row => if r.id == nid then
          { r with thumbnail_filename := some (thumbnail_name nid) } else r) ∧
    nid = w.catalog.nextId ∧
    (add_artwork_to_database env w p md mv cd).2.fs = (ingest_path env w p md mv).2 ∧
    (add_artwork_to_database env w p md mv cd).2.catalog.nextId = w.catalog.nextId + 1 := by
  rw [add_artwork_success_char env w p md mv cd info cat₂ nid hf ha hpl hdup hins hth]
  unfold insert_artwork at hins
  split_ifs at hins
  try simp only [reduceCtorEq] at hins
  obtain ⟨hcat, hnid⟩ := by simpa using hins
  subst hnid
  refine ⟨?_, rfl, rfl, ?_⟩
  · rw [← hcat]
    rfl
  · rw [← hcat]
    rfl

end ZGallery

namespace ZGallery

set_option maxHeartbeats 2000000 in
/-- C6: (1) `place` derives the target directory from
`(platform, artist)` and records its creation; (2) when the target path
is occupied, the incoming base name receives the `_timestamp` suffix and
the chosen path differs from the occupied one (no overwrite); (3) two
successful ingests of distinct files resolving to the same target path
yield two catalog rows with distinct `storage_path` values. -/
theorem claim_C6 :
    (∀ (env : Env) (fs : FS) (p pf ar : String),
      osJoin (osJoin IMAGES_ROOT_FOLDER pf) ar ∈ (place env fs p pf ar).2.dirs) ∧
    (∀ (env : Env) (fs : FS) (p pf ar : String),
      (fs.lookup (osJoin (osJoin (osJoin IMAGES_ROOT_FOLDER pf) ar) (basename p))).isSome =
        true →
      (place env fs p pf ar).1 =
        osJoin (osJoin (osJoin IMAGES_ROOT_FOLDER pf) ar)
          ((splitext (basename p)).1 ++ "_" ++ env.nowTs ++ (splitext (basename p)).2) ∧
      (place env fs p pf ar).1 ≠
        osJoin (osJoin (osJoin IMAGES_ROOT_FOLDER pf) ar) (basename p)) ∧
    (∀ (env₁ env₂ : Env) (w : World) (p₁ p₂ : String) (md₁ md₂ : Metadata) (cd₁ cd₂ : Bool)
        (info₁ info₂ : FileInfo) (cat₂ cat₃ : Catalog) (nid₁ nid₂ : Nat),
      w.fs.lookup p₁ = some info₁ →
      truthyStr md₁.artist = true → truthyStr md₁.platform = true →
      dup_hit w md₁ cd₁ = false →
      insert_artwork w.catalog (ingest_row env₁ w p₁ md₁ true info₁) = .ok (cat₂, nid₁) →
      info₁.thumbOk = true →
      w.fs.lookup (osJoin (osJoin (osJoin IMAGES_ROOT_FOLDER (md₁.platform.getD ""))
        (md₁.artist.getD "")) (basename p₁)) = none →
      (add_artwork_to_database env₁ w p₁ md₁ true cd₁).2.fs.lookup p₂ = some info₂ →
      truthyStr md₂.artist = true → truthyStr md₂.platform = true →
      dup_hit (add_artwork_to_database env₁ w p₁ md₁ true cd₁).2 md₂ cd₂ = false →
      insert_artwork (add_artwork_to_database env₁ w p₁ md₁ true cd₁).2.catalog
        (ingest_row env₂ (add_artwork_to_database env₁ w p₁ md₁ true cd₁).2 p₂ md₂ true
          info₂) = .ok (cat₃, nid₂) →
      info₂.thumbOk = true →
      md₂.platform.getD "" = md₁.platform.getD "" →
      md₂.artist.getD "" = md₁.artist.getD "" →
      basename p₂ = basename p₁ →
      ∃ r₁ ∈ (add_artwork_to_database env₂ (add_artwork_to_database env₁ w p₁ md₁ true cd₁).2
          p₂ md₂ true cd₂).2.catalog.rows,
        ∃ r₂ ∈ (add_artwork_to_database env₂
            (add_artwork_to_database env₁ w p₁ md₁ true cd₁).2 p₂ md₂ true
            cd₂).2.catalog.rows,
          r₁.id = nid₁ ∧ r₂.id = nid₂ ∧ r₁.file_path ≠ r₂.file_path) := by
  refine ⟨place_mkdir, ?_, ?_⟩
  · intro env fs p pf ar hocc
    constructor
    · rw [place_occupied env fs p pf ar hocc]
    · rw [place_occupied env fs p pf ar hocc]
      exact str_ne_of_length_ne (suffixed_target_length_ne _ _ _ (basename_no_slash p))
  · intro env₁ env₂ w p₁ p₂ md₁ md₂ cd₁ cd₂ info₁ info₂ cat₂ cat₃ nid₁ nid₂
    intro hf₁ ha₁ hpl₁ hdup₁ hins₁ hth₁ hfree hf₂ ha₂ hpl₂ hdup₂ hins₂ hth₂ hplat hart hbase
    obtain ⟨hrows₁, hnid₁, hfs₁, hnext₁⟩ :=
      add_artwork_success_rows env₁ w p₁ md₁ true cd₁ info₁ cat₂ nid₁ hf₁ ha₁ hpl₁ hdup₁
        hins₁ hth₁
    obtain ⟨hrows₂, hnid₂, hfs₂, hnext₂⟩ :=
      add_artwork_success_rows env₂ _ p₂ md₂ true cd₂ info₂ cat₃ nid₂ hf₂ ha₂ hpl₂ hdup₂
        hins₂ hth₂
    rw [hnext₁] at hnid₂
    have hneq : nid₁ ≠ nid₂ := by rw [hnid₁, hnid₂]; omega
    have hpath₁ : (ingest_path env₁ w p₁ md₁ true).1 =
        osJoin (osJoin (osJoin IMAGES_ROOT_FOLDER (md₁.platform.getD ""))
          (md₁.artist.getD "")) (basename p₁) := by
      show (place env₁ w.fs p₁ (md₁.platform.getD "") (md₁.artist.getD "")).1 = _
      rw [place_free env₁ w.fs p₁ (md₁.platform.getD "") (md₁.artist.getD "") hfree]
    have hfsv : (ingest_path env₁ w p₁ md₁ true).2 =
        (w.fs.mkdir (osJoin (osJoin IMAGES_ROOT_FOLDER (md₁.platform.getD ""))
          (md₁.artist.getD ""))).move p₁
          (osJoin (osJoin (osJoin IMAGES_ROOT_FOLDER (md₁.platform.getD ""))
            (md₁.artist.getD "")) (basename p₁)) := by
      show (place env₁ w.fs p₁ (md₁.platform.getD "") (md₁.artist.getD "")).2 = _
      rw [place_free env₁ w.fs p₁ (md₁.platform.getD "") (md₁.artist.getD "") hfree]
    have hocc : (((add_artwork_to_database env₁ w p₁ md₁ true cd₁).2.fs).lookup
        (osJoin (osJoin (osJoin IMAGES_ROOT_FOLDER (md₁.platform.getD ""))
          (md₁.artist.getD "")) (basename p₂))).isSome = true := by
      rw [hbase, hfs₁, hfsv,
        FS.lookup_move_dst _ p₁ _ info₁ (by rw [FS.lookup_mkdir]; exact hf₁)]
      rfl
    have hpath₂ : (ingest_path env₂ (add_artwork_to_database env₁ w p₁ md₁ true cd₁).2 p₂
        md₂ true).1 =
        osJoin (osJoin (osJoin IMAGES_ROOT_FOLDER (md₁.platform.getD ""))
          (md₁.artist.getD ""))
          ((splitext (basename p₁)).1 ++ "_" ++ env₂.nowTs ++ (splitext (basename p₁)).2) := by
      show (place env₂ (add_artwork_to_database env₁ w p₁ md₁ true cd₁).2.fs p₂
        (md₂.platform.getD "") (md₂.artist.getD "")).1 = _
      rw [hplat, hart, place_occupied env₂ _ p₂ (md₁.platform.getD "") (md₁.artist.getD "")
        hocc, hbase]
    refine ⟨{ (ingest_row env₁ w p₁ md₁ true info₁) with id := nid₁, thumbnail_filename := some (thumbnail_name nid₁) }, ?_, { (ingest_row env₂ (add_artwork_to_database env₁ w p₁ md₁ true cd₁).2 p₂ md₂ true info₂) with id := nid₂, thumbnail_filename := some (thumbnail_name nid₂) }, ?_, rfl, rfl, ?_⟩
    · rw [hrows₂]
      have hr₁C : ({ (ingest_row env₁ w p₁ md₁ true info₁) with id := nid₁, thumbnail_filename := some (thumbnail_name nid₁) } : Row) ∈ (add_artwork_to_database env₁ w p₁ md₁ true cd₁).2.catalog.rows := by
        rw [hrows₁]
        have hmm : ((fun r : Row => if r.id == nid₁ then
            { r with thumbnail_filename := some (thumbnail_name nid₁) } else r)
            { (ingest_row env₁ w p₁ md₁ true info₁) with id := nid₁ }) =
            { (ingest_row env₁ w p₁ md₁ true info₁) with id := nid₁, thumbnail_filename := some (thumbnail_name nid₁) } := by
          simp
        exact hmm ▸ List.mem_map_of_mem _
          (List.mem_append_right _ (List.mem_singleton_self _))
      have hfix : ((fun r : Row => if r.id == nid₂ then
          { r with thumbnail_filename := some (thumbnail_name nid₂) } else r)
          { (ingest_row env₁ w p₁ md₁ true info₁) with id := nid₁, thumbnail_filename := some (thumbnail_name nid₁) }) =
          { (ingest_row env₁ w p₁ md₁ true info₁) with id := nid₁, thumbnail_filename := some (thumbnail_name nid₁) } := by
        have hb : (nid₁ == nid₂) = false := beq_eq_false_iff_ne.mpr hneq
        simp [hb]
      exact hfix ▸ List.mem_map_of_mem _ (List.mem_append_left _ hr₁C)
    · rw [hrows₂]
      have hmm : ((fun r : Row => if r.id == nid₂ then
          { r with thumbnail_filename := some (thumbnail_name nid₂) } else r)
          { (ingest_row env₂ (add_artwork_to_database env₁ w p₁ md₁ true cd₁).2 p₂ md₂ true info₂) with id := nid₂ }) =
          { (ingest_row env₂ (add_artwork_to_database env₁ w p₁ md₁ true cd₁).2 p₂ md₂ true info₂) with id := nid₂, thumbnail_filename := some (thumbnail_name nid₂) } := by
        simp
      exact hmm ▸ List.mem_map_of_mem _
        (List.mem_append_right _ (List.mem_singleton_self _))
    · have e₁ : ({ (ingest_row env₁ w p₁ md₁ true info₁) with id := nid₁, thumbnail_filename := some (thumbnail_name nid₁) } : Row).file_path =
          normalize_path (osJoin (osJoin (osJoin IMAGES_ROOT_FOLDER (md₁.platform.getD ""))
            (md₁.artist.getD "")) (basename p₁)) := by
        show normalize_path ((ingest_path env₁ w p₁ md₁ true).1) = _
        rw [hpath₁]
      have e₂ : ({ (ingest_row env₂ (add_artwork_to_database env₁ w p₁ md₁ true cd₁).2 p₂ md₂ true info₂) with id := nid₂, thumbnail_filename := some (thumbnail_name nid₂) } : Row).file_path =
          normalize_path (osJoin (osJoin (osJoin IMAGES_ROOT_FOLDER (md₁.platform.getD ""))
            (md₁.artist.getD ""))
            ((splitext (basename p₁)).1 ++ "_" ++ env₂.nowTs ++
              (splitext (basename p₁)).2)) := by
        show normalize_path ((ingest_path env₂
          (add_artwork_to_database env₁ w p₁ md₁ true cd₁).2 p₂ md₂ true).1) = _
        rw [hpath₂]
      rw [e₁, e₂]
      exact fun he => normalize_suffixed_ne _ (basename p₁) env₂.nowTs
        (basename_no_slash p₁) he.symm

end ZGallery

namespace ZGallery

/-- C6 witness: two concrete files `s1/cat.jpg` and `s2/cat.jpg` with
the same metadata are placed in the same target directory; the second
ingest disambiguates the name, and the two rows carry distinct
`storage_path` values. -/
theorem claim_C6_witness :
    ∃ r₁ ∈ (add_artwork_to_database ⟨⟨2024, 6, 2, 12, 0, 0⟩, "TS2"⟩
        (add_artwork_to_database ⟨⟨2024, 6, 1, 12, 0, 0⟩, "TS1"⟩
          ⟨⟨[("s1/cat.jpg", { ctime := ⟨2022, 1, 1, 0, 0, 0⟩ }),
             ("s2/cat.jpg", { ctime := ⟨2022, 1, 1, 0, 0, 0⟩ })], []⟩, ⟨[], 1⟩, []⟩
          "s1/cat.jpg" { artist := some "A", platform := some "P" } true true).2
        "s2/cat.jpg" { artist := some "A", platform := some "P" } true true).2.catalog.rows,
      ∃ r₂ ∈ (add_artwork_to_database ⟨⟨2024, 6, 2, 12, 0, 0⟩, "TS2"⟩
          (add_artwork_to_database ⟨⟨2024, 6, 1, 12, 0, 0⟩, "TS1"⟩
            ⟨⟨[("s1/cat.jpg", { ctime := ⟨2022, 1, 1, 0, 0, 0⟩ }),
               ("s2/cat.jpg", { ctime := ⟨2022, 1, 1, 0, 0, 0⟩ })], []⟩, ⟨[], 1⟩, []⟩
            "s1/cat.jpg" { artist := some "A", platform := some "P" } true true).2
          "s2/cat.jpg" { artist := some "A", platform := some "P" } true true).2.catalog.rows,
        r₁.id = 1 ∧ r₂.id = 2 ∧ r₁.file_path ≠ r₂.file_path :=
  claim_C6.2.2 ⟨⟨2024, 6, 1, 12, 0, 0⟩, "TS1"⟩ ⟨⟨2024, 6, 2, 12, 0, 0⟩, "TS2"⟩
    ⟨⟨[("s1/cat.jpg", { ctime := ⟨2022, 1, 1, 0, 0, 0⟩ }),
       ("s2/cat.jpg", { ctime := ⟨2022, 1, 1, 0, 0, 0⟩ })], []⟩, ⟨[], 1⟩, []⟩
    "s1/cat.jpg" "s2/cat.jpg" { artist := some "A", platform := some "P" }
    { artist := some "A", platform := some "P" } true true
    { ctime := ⟨2022, 1, 1, 0, 0, 0⟩ } { ctime := ⟨2022, 1, 1, 0, 0, 0⟩ }
    ⟨[{ id := 1, file_path := "./zootopia_pics/P/A/cat.jpg", file_name := "cat.jpg",
        title := none, artist := "A", source_platform := "P", tags := "", description := "",
        rating := none, category := "fanart_non_comic", classification := none,
        creation_date := some ⟨2022, 1, 1, 0, 0, 0⟩,
        publication_date := some ⟨2022, 1, 1, 0, 0, 0⟩,
        last_modified_date := ⟨2024, 6, 1, 12, 0, 0⟩, phash := none, source_url := none,
        thumbnail_filename := none }], 2⟩
    ⟨[{ id := 1, file_path := "./zootopia_pics/P/A/cat.jpg", file_name := "cat.jpg",
        title := none, artist := "A", source_platform := "P", tags := "", description := "",
        rating := none, category := "fanart_non_comic", classification := none,
        creation_date := some ⟨2022, 1, 1, 0, 0, 0⟩,
        publication_date := some ⟨2022, 1, 1, 0, 0, 0⟩,
        last_modified_date := ⟨2024, 6, 1, 12, 0, 0⟩, phash := none, source_url := none,
        thumbnail_filename := some "000001.jpg" },
      { id := 2, file_path := "./zootopia_pics/P/A/cat_TS2.jpg", file_name := "cat_TS2.jpg",
        title := none, artist := "A", source_platform := "P", tags := "", description := "",
        rating := none, category := "fanart_non_comic", classification := none,
        creation_date := some ⟨2022, 1, 1, 0, 0, 0⟩,
        publication_date := some ⟨2022, 1, 1, 0, 0, 0⟩,
        last_modified_date := ⟨2024, 6, 2, 12, 0, 0⟩, phash := none, source_url := none,
        thumbnail_filename := none }], 3⟩ 1 2
    (by decide) (by decide) (by decide) (by decide) (by rfl) (by decide) (by decide)
    (by decide) (by decide) (by decide) (by decide) (by rfl) (by decide) (by decide)
    (by decide) (by decide)

end ZGallery
